import Mathlib

/-!
Verification of the navigation core of the fl2 repository: the grid model
(src/modules/navigation/navigationGrid.ts), the A-star pathfinder
(src/modules/navigation/pathfinding.ts) and the movement coordinator and
door-action layer (src/app/PixiRenderer.ts), shallowly embedded in Lean.

Modelling conventions:
- grid coordinates are integers; JS string keys of the form "x,y" are
  injective on integer pairs, so position-keyed maps are keyed by the
  position itself;
- a JS Map is an insertion-ordered association list: set replaces an
  existing key in place or appends, delete removes the entry, get scans
  for the first matching key;
- JS numbers that carry costs and times are rationals; the one use of
  Number.POSITIVE_INFINITY (movementCost) is modelled by Option, with
  none standing for the infinite cost that the search filters out;
- optional TS parameters and optional record fields are Option.
-/

/-- Integer grid coordinate, the NavPos record of navigation/types.ts. -/
structure NavPos where
  x : Int
  y : Int
deriving DecidableEq

/-- Door state enumeration of navigation/types.ts; the source string
"open" is the constructor opened because open is reserved in Lean. -/
inductive DoorState where
  | opened
  | closed
  | locked
deriving DecidableEq

/-- Per-position tile record of navigation/types.ts. -/
structure NavTile where
  pos : NavPos
  walkable : Bool
  blocksLos : Bool
  terrainCost : ℚ
deriving DecidableEq

/-- The obstacle union of navigation/types.ts (wall, door, body). -/
inductive NavObstacle where
  | wall (id : String) (pos : NavPos) (blocksLos : Bool)
  | door (id : String) (pos : NavPos) (state : DoorState)
      (blocksLosWhenClosed : Bool)
  | body (id : String) (pos : NavPos)
deriving DecidableEq

/-- Stable id of an obstacle. -/
def NavObstacle.id : NavObstacle → String
  | .wall i _ _ => i
  | .door i _ _ _ => i
  | .body i _ => i

/-- Position of an obstacle. -/
def NavObstacle.pos : NavObstacle → NavPos
  | .wall _ p _ => p
  | .door _ p _ _ => p
  | .body _ p => p

/-- Credential context accepted by tryOpenDoor (navigation/types.ts). -/
structure DoorOpenContext where
  hasKey : Option Bool := none
  lockpickSkill : Option ℚ := none

/-- JS-Map set: replace the first entry with this key in place, else
append at the end (JS Maps keep insertion order on update). -/
def mapSet {κ α : Type} [DecidableEq κ] : List (κ × α) → κ → α → List (κ × α)
  | [], k, v => [(k, v)]
  | (k0, v0) :: t, k, v =>
      if k0 = k then (k, v) :: t else (k0, v0) :: mapSet t k v

/-- JS-Map get: first entry with this key. -/
def mapGet {κ α : Type} [DecidableEq κ] : List (κ × α) → κ → Option α
  | [], _ => none
  | (k0, v0) :: t, k => if k0 = k then some v0 else mapGet t k

/-- JS-Map delete: drop the first entry with this key. -/
def mapDel {κ α : Type} [DecidableEq κ] : List (κ × α) → κ → List (κ × α)
  | [], _ => []
  | (k0, v0) :: t, k => if k0 = k then t else (k0, v0) :: mapDel t k

/-- The NavigationGrid state: its four private maps
(navigationGrid.ts lines 22-25).  tiles and the two by-position maps are
keyed by the position (the source key posKey is injective), obstacles by
the obstacle id. -/
structure NavigationGrid where
  tiles : List (NavPos × NavTile) := []
  obstacles : List (String × NavObstacle) := []
  obstacleByPos : List (NavPos × String) := []
  occupiedByPos : List (NavPos × String) := []
deriving DecidableEq

/-- clampTerrainCost of navigationGrid.ts: non-positive (in JS also
non-finite) costs are clamped to 1. -/
def clampTerrainCost (cost : ℚ) : ℚ :=
  if cost ≤ 0 then 1 else cost

/-- NavigationGrid.setTile. -/
def NavigationGrid.setTile (g : NavigationGrid) (tile : NavTile) : NavigationGrid :=
  let stored := { tile with terrainCost := clampTerrainCost tile.terrainCost }
  { g with tiles := mapSet g.tiles tile.pos stored }

/-- NavigationGrid.setObstacle: upsert by id and record the id at the
obstacle position.  The source does not clear a previous position entry
of the same id. -/
def NavigationGrid.setObstacle (g : NavigationGrid) (ob : NavObstacle) : NavigationGrid :=
  { g with
      obstacles := mapSet g.obstacles ob.id ob
      obstacleByPos := mapSet g.obstacleByPos ob.pos ob.id }

/-- NavigationGrid.removeObstacle. -/
def NavigationGrid.removeObstacle (g : NavigationGrid) (obstacleId : String) :
    NavigationGrid :=
  match mapGet g.obstacles obstacleId with
  | none => g
  | some ob =>
      { g with
          obstacles := mapDel g.obstacles obstacleId
          obstacleByPos := mapDel g.obstacleByPos ob.pos }

/-- NavigationGrid.setDoorState: false when absent or not a door,
otherwise overwrite the state unconditionally. -/
def NavigationGrid.setDoorState (g : NavigationGrid) (doorId : String)
    (state : DoorState) : Bool × NavigationGrid :=
  match mapGet g.obstacles doorId with
  | some (.door i p _ b) =>
      (true, { g with obstacles := mapSet g.obstacles doorId (.door i p state b) })
  | _ => (false, g)

/-- NavigationGrid.getDoorState. -/
def NavigationGrid.getDoorState (g : NavigationGrid) (doorId : String) :
    Option DoorState :=
  match mapGet g.obstacles doorId with
  | some (.door _ _ st _) => some st
  | _ => none

/-- NavigationGrid.tryOpenDoor (navigationGrid.ts lines 66-83): true on
an already open door; on a locked door a key or lockpick skill at least
60 is required; then the state is set to open. -/
def NavigationGrid.tryOpenDoor (g : NavigationGrid) (doorId : String)
    (context : Option DoorOpenContext) : Bool × NavigationGrid :=
  match mapGet g.obstacles doorId with
  | some (.door i p st b) =>
      if st = .opened then (true, g)
      else
        let hasKey : Bool := (context.bind (·.hasKey)).getD false
        let canPick : Bool := decide (60 ≤ (context.bind (·.lockpickSkill)).getD 0)
        if st = .locked ∧ hasKey = false ∧ canPick = false then (false, g)
        else
          (true, { g with obstacles := mapSet g.obstacles doorId (.door i p .opened b) })
  | _ => (false, g)

/-- NavigationGrid.setOccupied. -/
def NavigationGrid.setOccupied (g : NavigationGrid) (pos : NavPos)
    (bodyId : String) : NavigationGrid :=
  { g with occupiedByPos := mapSet g.occupiedByPos pos bodyId }

/-- NavigationGrid.clearOccupied. -/
def NavigationGrid.clearOccupied (g : NavigationGrid) (pos : NavPos) :
    NavigationGrid :=
  { g with occupiedByPos := mapDel g.occupiedByPos pos }

/-- NavigationGrid.isOccupied. -/
def NavigationGrid.isOccupied (g : NavigationGrid) (pos : NavPos) : Bool :=
  (mapGet g.occupiedByPos pos).isSome

/-- NavigationGrid.isWalkable (navigationGrid.ts lines 97-127): the tile
must exist and be walkable; then the obstacle registered at the position
is consulted (wall blocks, non-open door blocks, body blocks unless it is
the ignored body); then the occupancy map blocks unless the occupant is
the ignored body. -/
def NavigationGrid.isWalkable (g : NavigationGrid) (pos : NavPos)
    (ignoreBodyId : Option String) : Bool :=
  match mapGet g.tiles pos with
  | none => false
  | some tile =>
    if !tile.walkable then false
    else
      let obstacleOk :=
        match mapGet g.obstacleByPos pos with
        | none => true
        | some obstacleId =>
          match mapGet g.obstacles obstacleId with
          | some (.wall _ _ _) => false
          | some (.door _ _ st _) => st = .opened
          | some (.body bid _) => ignoreBodyId = some bid
          | none => true
      if !obstacleOk then false
      else
        match mapGet g.occupiedByPos pos with
        | none => true
        | some occupied => ignoreBodyId = some occupied

/-- NavigationGrid.movementCost: none models the source +Infinity
returned for a missing tile or an unwalkable position. -/
def NavigationGrid.movementCost (g : NavigationGrid) (pos : NavPos) : Option ℚ :=
  match mapGet g.tiles pos with
  | none => none
  | some tile =>
      if g.isWalkable pos none then some (clampTerrainCost tile.terrainCost)
      else none

/-- NavigationGrid.blocksLos. -/
def NavigationGrid.blocksLos (g : NavigationGrid) (pos : NavPos) : Bool :=
  match mapGet g.tiles pos with
  | none => true
  | some tile =>
    if tile.blocksLos then true
    else
      match mapGet g.obstacleByPos pos with
      | none => false
      | some obstacleId =>
        match mapGet g.obstacles obstacleId with
        | none => false
        | some (.wall _ _ b) => b
        | some (.door _ _ st b) => b && decide (st ≠ .opened)
        | some (.body _ _) => false

/-- NavigationGrid.getDoorAt. -/
def NavigationGrid.getDoorAt (g : NavigationGrid) (pos : NavPos) :
    Option NavObstacle :=
  match mapGet g.obstacleByPos pos with
  | none => none
  | some obstacleId =>
    match mapGet g.obstacles obstacleId with
    | some (.door i p st b) => some (.door i p st b)
    | _ => none

/-- The obstacle that position-keyed queries resolve at a position: the
by-position id map followed by the id-keyed obstacle map. -/
def NavigationGrid.getObstacleAt (g : NavigationGrid) (pos : NavPos) :
    Option NavObstacle :=
  (mapGet g.obstacleByPos pos).bind (mapGet g.obstacles)

/-- A wall is registered at the position: the position-keyed lookup
resolves to a wall obstacle. -/
def NavigationGrid.wallRegisteredAt (g : NavigationGrid) (pos : NavPos) : Bool :=
  match g.getObstacleAt pos with
  | some (.wall _ _ _) => true
  | _ => false

/-- Reading back the key just written into a JS map returns the written
value. -/
theorem mapGet_mapSet_self {κ α : Type} [DecidableEq κ]
    (l : List (κ × α)) (k : κ) (v : α) : mapGet (mapSet l k v) k = some v := by
  induction l with
  | nil => simp [mapSet, mapGet]
  | cons e t ih =>
    obtain ⟨k0, v0⟩ := e
    by_cases h : k0 = k
    · simp [mapSet, mapGet, h]
    · simp [mapSet, mapGet, h, ih]

/-- Writing one key of a JS map leaves every other key unchanged. -/
theorem mapGet_mapSet_ne {κ α : Type} [DecidableEq κ]
    (l : List (κ × α)) (k k' : κ) (v : α) (hk : k' ≠ k) :
    mapGet (mapSet l k v) k' = mapGet l k' := by
  have hk' : ¬k = k' := fun h => hk h.symm
  induction l with
  | nil => simp [mapSet, mapGet, hk']
  | cons e t ih =>
    obtain ⟨k0, v0⟩ := e
    by_cases h : k0 = k
    · subst h
      simp [mapSet, mapGet, hk']
    · by_cases h' : k0 = k'
      · simp [mapSet, mapGet, h, h', hk]
      · simp [mapSet, mapGet, h, h', ih]

/-- The occupancy step (e) of the spec description of isWalkable: an
occupancy entry other than the ignored body blocks. -/
def isWalkableSpecOcc (g : NavigationGrid) (pos : NavPos)
    (ignoreBodyId : Option String) : Bool :=
  match mapGet g.occupiedByPos pos with
  | some occupant => if ignoreBodyId ≠ some occupant then false else true
  | none => true

/-- The spec wording of isWalkable, steps (a) to (e) in order: (a) tile
exists and is walkable, (b) wall blocks, (c) non-open door blocks,
(d) body other than ignoreBodyId blocks, (e) occupancy entry other than
ignoreBodyId blocks; otherwise walkable.  Stated for comparison with the
source translation NavigationGrid.isWalkable. -/
def isWalkableSpec (g : NavigationGrid) (pos : NavPos)
    (ignoreBodyId : Option String) : Bool :=
  match mapGet g.tiles pos with
  | none => false
  | some tile =>
    if !tile.walkable then false
    else
      match g.getObstacleAt pos with
      | some (.wall _ _ _) => false
      | some (.door _ _ st _) =>
          if st ≠ .opened then false else isWalkableSpecOcc g pos ignoreBodyId
      | some (.body bid _) =>
          if ignoreBodyId ≠ some bid then false else isWalkableSpecOcc g pos ignoreBodyId
      | none => isWalkableSpecOcc g pos ignoreBodyId

/-- An obstacle lookup at the position that blocks nobody: either no
obstacle resolves there, or the resolved obstacle is an open door. -/
def NavigationGrid.nonBlockingObstacleAt (g : NavigationGrid) (pos : NavPos) : Bool :=
  match g.getObstacleAt pos with
  | none => true
  | some (.door _ _ st _) => st = .opened
  | some _ => false

/-- The source isWalkable agrees with the spec-ordered decision
procedure on every grid. -/
theorem isWalkable_eq_spec (g : NavigationGrid) (pos : NavPos)
    (ignoreBodyId : Option String) :
    g.isWalkable pos ignoreBodyId = isWalkableSpec g pos ignoreBodyId := by
  unfold NavigationGrid.isWalkable isWalkableSpec NavigationGrid.getObstacleAt
  unfold isWalkableSpecOcc
  cases ht : mapGet g.tiles pos with
  | none => simp [ht]
  | some tile =>
    cases hw : tile.walkable with
    | false => simp [ht, hw]
    | true =>
      cases hocc : mapGet g.occupiedByPos pos with
      | none =>
        cases hb : mapGet g.obstacleByPos pos with
        | none => simp [ht, hw, hb, hocc]
        | some oid =>
          cases ho : mapGet g.obstacles oid with
          | none => simp [ht, hw, hb, ho, hocc]
          | some ob =>
            cases ob with
            | wall i p bl => simp [ht, hw, hb, ho, hocc]
            | door i p st bl => cases st <;> simp [ht, hw, hb, ho, hocc]
            | body bid p =>
              by_cases hib : ignoreBodyId = some bid <;>
                simp [ht, hw, hb, ho, hocc, hib]
      | some occ =>
        cases hb : mapGet g.obstacleByPos pos with
        | none => simp [ht, hw, hb, hocc]
        | some oid =>
          cases ho : mapGet g.obstacles oid with
          | none => simp [ht, hw, hb, ho, hocc]
          | some ob =>
            cases ob with
            | wall i p bl => simp [ht, hw, hb, ho, hocc]
            | door i p st bl => cases st <;> simp [ht, hw, hb, ho, hocc]
            | body bid p =>
              by_cases hib : ignoreBodyId = some bid <;>
                simp [ht, hw, hb, ho, hocc, hib]

/-- C5: isWalkable follows the spec evaluation order (tile, wall,
non-open door, body obstacle, occupancy map), and on a walkable tile
with no blocking obstacle an occupancy entry by another body makes the
position unwalkable while passing the occupant as ignoreBodyId makes it
walkable. -/
theorem isWalkable_occupancy_and_order (g : NavigationGrid) (pos : NavPos)
    (ignoreBodyId : Option String) :
    g.isWalkable pos ignoreBodyId = isWalkableSpec g pos ignoreBodyId ∧
    (∀ tile, mapGet g.tiles pos = some tile → tile.walkable = true →
      g.nonBlockingObstacleAt pos = true →
      ∀ occ, mapGet g.occupiedByPos pos = some occ →
        (ignoreBodyId ≠ some occ → g.isWalkable pos ignoreBodyId = false) ∧
        g.isWalkable pos (some occ) = true) := by
  refine ⟨isWalkable_eq_spec g pos ignoreBodyId, ?_⟩
  intro tile htile hwalk hnb occ hocc
  have hblock : ∀ i, g.nonBlockingObstacleAt pos = true →
      g.isWalkable pos i =
        match mapGet g.occupiedByPos pos with
        | some occupant => decide (i = some occupant)
        | none => true := by
    intro i hnb2
    rw [isWalkable_eq_spec]
    unfold isWalkableSpec isWalkableSpecOcc
    unfold NavigationGrid.nonBlockingObstacleAt at hnb2
    cases hb : g.getObstacleAt pos with
    | none =>
      simp only [hb] at hnb2 ⊢
      cases hoc : mapGet g.occupiedByPos pos <;> simp [htile, hwalk, hoc]
    | some ob =>
      cases ob with
      | wall i2 p2 b2 => simp [hb] at hnb2
      | body i2 p2 => simp [hb] at hnb2
      | door i2 p2 st2 b2 =>
        simp only [hb] at hnb2 ⊢
        cases st2 with
        | opened =>
          cases hoc : mapGet g.occupiedByPos pos <;> simp [htile, hwalk, hoc]
        | closed => simp at hnb2
        | locked => simp at hnb2
  constructor
  · intro hne
    rw [hblock ignoreBodyId hnb, hocc]
    simp [hne]
  · rw [hblock (some occ) hnb, hocc]
    simp

/-- Concrete grid for the occupancy witness: one walkable tile at the
origin, occupied by the body npc. -/
def occupancyDemoGrid : NavigationGrid :=
  (NavigationGrid.setTile {} { pos := ⟨0, 0⟩, walkable := true, blocksLos := false, terrainCost := 1 }).setOccupied ⟨0, 0⟩ "npc"

/-- Witness for the occupancy claim on a concrete grid. -/
theorem isWalkable_occupancy_witness :
    occupancyDemoGrid.isWalkable ⟨0, 0⟩ (some "me") = false ∧
    occupancyDemoGrid.isWalkable ⟨0, 0⟩ (some "npc") = true := by
  have h := (isWalkable_occupancy_and_order occupancyDemoGrid ⟨0, 0⟩ (some "me")).2
    { pos := ⟨0, 0⟩, walkable := true, blocksLos := false, terrainCost := 1 }
    (by decide) (by decide) (by decide) "npc" (by decide)
  exact ⟨h.1 (by decide), h.2⟩

/-- C4: tryOpenDoor on a locked door fails and leaves the state locked
without a key or lockpick skill at least 60, succeeds and opens with
either credential; a closed door opens unconditionally; an already open
door reports success and the grid is untouched. -/
theorem tryOpenDoor_credential_semantics
    (g : NavigationGrid) (doorId i : String) (p : NavPos) (st : DoorState)
    (b : Bool) (hdoor : mapGet g.obstacles doorId = some (.door i p st b))
    (ctx : Option DoorOpenContext) :
    (st = .locked → (ctx.bind (·.hasKey)).getD false = false →
      (ctx.bind (·.lockpickSkill)).getD 0 < 60 →
      g.tryOpenDoor doorId ctx = (false, g) ∧
      g.getDoorState doorId = some .locked) ∧
    (st = .locked → ((ctx.bind (·.hasKey)).getD false = true ∨
        60 ≤ (ctx.bind (·.lockpickSkill)).getD 0) →
      (g.tryOpenDoor doorId ctx).1 = true ∧
      ((g.tryOpenDoor doorId ctx).2).getDoorState doorId = some .opened) ∧
    (st = .closed →
      (g.tryOpenDoor doorId ctx).1 = true ∧
      ((g.tryOpenDoor doorId ctx).2).getDoorState doorId = some .opened) ∧
    (st = .opened → g.tryOpenDoor doorId ctx = (true, g)) := by
  refine ⟨?_, ?_, ?_, ?_⟩
  · intro hst hkey hskill
    subst hst
    have hcp : decide (60 ≤ (ctx.bind (·.lockpickSkill)).getD 0) = false := by
      simp [not_le.mpr hskill]
    constructor
    · simp [NavigationGrid.tryOpenDoor, hdoor, hkey, hcp]
    · simp [NavigationGrid.getDoorState, hdoor]
  · intro hst hcred
    subst hst
    have hcond : ¬((ctx.bind (·.hasKey)).getD false = false ∧
        (ctx.bind (·.lockpickSkill)).getD 0 < 60) := by
      rcases hcred with hk | hs
      · simp [hk]
      · simp [not_lt.mpr hs]
    constructor
    · simp [NavigationGrid.tryOpenDoor, hdoor, hcond]
    · simp [NavigationGrid.tryOpenDoor, hdoor, hcond,
        NavigationGrid.getDoorState, mapGet_mapSet_self]
  · intro hst
    subst hst
    constructor
    · simp [NavigationGrid.tryOpenDoor, hdoor]
    · simp [NavigationGrid.tryOpenDoor, hdoor,
        NavigationGrid.getDoorState, mapGet_mapSet_self]
  · intro hst
    subst hst
    simp [NavigationGrid.tryOpenDoor, hdoor]

/-- Concrete grid holding one locked demo door. -/
def lockedDoorGrid : NavigationGrid :=
  NavigationGrid.setObstacle {}
    (.door "door_locked" ⟨3, 1⟩ .locked true)

/-- Witness for the tryOpenDoor claim: with no credentials the locked
demo door stays locked, with a key it opens. -/
theorem tryOpenDoor_credential_witness :
    (lockedDoorGrid.tryOpenDoor "door_locked" none = (false, lockedDoorGrid) ∧
      lockedDoorGrid.getDoorState "door_locked" = some .locked) ∧
    ((lockedDoorGrid.tryOpenDoor "door_locked"
        (some { hasKey := some true })).1 = true ∧
      ((lockedDoorGrid.tryOpenDoor "door_locked"
        (some { hasKey := some true })).2).getDoorState "door_locked" =
        some .opened) := by
  have h := tryOpenDoor_credential_semantics lockedDoorGrid "door_locked"
    "door_locked" ⟨3, 1⟩ .locked true (by decide) none
  have h2 := tryOpenDoor_credential_semantics lockedDoorGrid "door_locked"
    "door_locked" ⟨3, 1⟩ .locked true (by decide)
    (some { hasKey := some true })
  exact ⟨h.1 rfl (by decide) (by decide), h2.2.1 rfl (Or.inl (by decide))⟩

/-- Grid in which the wall A was first set at the origin and then re-set
at position one-zero under the same id; both tiles are walkable terrain. -/
def movedWallGrid : NavigationGrid :=
  (((NavigationGrid.setTile {} { pos := ⟨0, 0⟩, walkable := true, blocksLos := false, terrainCost := 1 }).setTile
      { pos := ⟨1, 0⟩, walkable := true, blocksLos := false, terrainCost := 1 }).setObstacle
      (.wall "A" ⟨0, 0⟩ true)).setObstacle (.wall "A" ⟨1, 0⟩ true)

/-- C8 counterexample: after re-setting the wall A at position one-zero,
the claim says its former position is no longer occupied by it; in the
code the stale by-position entry still resolves to A and the former
position stays unwalkable. -/
theorem setObstacle_stale_position_counterexample :
    mapGet movedWallGrid.obstacleByPos ⟨0, 0⟩ = some "A" ∧
    movedWallGrid.getObstacleAt ⟨0, 0⟩ = some (.wall "A" ⟨1, 0⟩ true) ∧
    movedWallGrid.isWalkable ⟨0, 0⟩ none = false := by
  decide

/-- C8 amended: position-keyed queries resolve the obstacle most
recently set at a position, but re-setting an obstacle id at a new
position leaves the old by-position entry in place, so the obstacle
keeps occupying its former position as well. -/
theorem setObstacle_lastWrite_and_stale (g : NavigationGrid) (ob : NavObstacle) :
    (g.setObstacle ob).getObstacleAt ob.pos = some ob ∧
    (∀ p0, p0 ≠ ob.pos → mapGet g.obstacleByPos p0 = some ob.id →
      mapGet (g.setObstacle ob).obstacleByPos p0 = some ob.id ∧
      (g.setObstacle ob).getObstacleAt p0 = some ob) := by
  constructor
  · unfold NavigationGrid.getObstacleAt NavigationGrid.setObstacle
    simp [mapGet_mapSet_self]
  · intro p0 hne hstale
    have hpos : mapGet (mapSet g.obstacleByPos ob.pos ob.id) p0 = some ob.id := by
      rw [mapGet_mapSet_ne g.obstacleByPos ob.pos p0 ob.id hne, hstale]
    refine ⟨hpos, ?_⟩
    unfold NavigationGrid.getObstacleAt NavigationGrid.setObstacle
    simp [hpos, mapGet_mapSet_self]

/-- Witness for the amended last-write-wins statement on the concrete
moved-wall grid. -/
theorem setObstacle_lastWrite_witness :
    movedWallGrid.getObstacleAt ⟨1, 0⟩ = some (.wall "A" ⟨1, 0⟩ true) ∧
    mapGet movedWallGrid.obstacleByPos ⟨0, 0⟩ = some "A" := by
  have h := setObstacle_lastWrite_and_stale
    (((NavigationGrid.setTile {} { pos := ⟨0, 0⟩, walkable := true, blocksLos := false, terrainCost := 1 }).setTile
        { pos := ⟨1, 0⟩, walkable := true, blocksLos := false, terrainCost := 1 }).setObstacle
        (.wall "A" ⟨0, 0⟩ true)) (.wall "A" ⟨1, 0⟩ true)
  exact ⟨h.1, (h.2 ⟨0, 0⟩ (by decide) (by decide)).1⟩

/-- Options record of findNavigationPath (pathfinding.ts lines 11-17);
absent fields take the source defaults inside findNavigationPath. -/
structure NavigationPathOptions where
  allowDiagonal : Option Bool := none
  preventCornerCutting : Option Bool := none
  allowTargetFallback : Option Bool := none
  maxFallbackRadius : Option Nat := none
  maxIterations : Option Nat := none

/-- Result record of findNavigationPath (pathfinding.ts lines 19-23). -/
structure NavigationPathResult where
  path : List NavPos
  resolvedGoal : Option NavPos
  usedFallback : Bool
deriving DecidableEq

/-- Search node of the A-star loop (pathfinding.ts lines 4-9); the
string key of a node is its position, so parentKey is kept as a
position. -/
structure NavNode where
  pos : NavPos
  g : ℚ
  h : ℚ
  f : ℚ
  parentKey : Option NavPos
deriving DecidableEq

/-- heuristic of pathfinding.ts: Chebyshev distance with diagonals,
Manhattan distance without. -/
def heuristic (a b : NavPos) (allowDiagonal : Bool) : ℚ :=
  let dx : ℚ := ((a.x - b.x).natAbs : ℚ)
  let dy : ℚ := ((a.y - b.y).natAbs : ℚ)
  if allowDiagonal then max dx dy else dx + dy

/-- neighbors of pathfinding.ts, in source order: the four orthogonal
cells, then the four diagonal cells when diagonals are allowed. -/
def neighbors (pos : NavPos) (allowDiagonal : Bool) : List NavPos :=
  let base : List NavPos :=
    [⟨pos.x + 1, pos.y⟩, ⟨pos.x - 1, pos.y⟩, ⟨pos.x, pos.y + 1⟩, ⟨pos.x, pos.y - 1⟩]
  if !allowDiagonal then base
  else
    base ++ [⟨pos.x + 1, pos.y + 1⟩, ⟨pos.x + 1, pos.y - 1⟩,
      ⟨pos.x - 1, pos.y + 1⟩, ⟨pos.x - 1, pos.y - 1⟩]

/-- stepDistance of pathfinding.ts: the source literal 1.41421356237 for
a diagonal step, 1 otherwise. -/
def stepDistance (a b : NavPos) : ℚ :=
  if a.x ≠ b.x ∧ a.y ≠ b.y then (141421356237 : ℚ) / 100000000000 else 1

/-- canTraverseDiagonal of pathfinding.ts (lines 72-89): a diagonal step
is allowed only when both orthogonal corner cells are walkable, unless
corner-cut prevention is off or the step is not diagonal. -/
def canTraverseDiagonal (a b : NavPos) (grid : NavigationGrid)
    (preventCornerCutting : Bool) : Bool :=
  if !preventCornerCutting then true
  else if !(decide (a.x ≠ b.x) && decide (a.y ≠ b.y)) then true
  else grid.isWalkable ⟨b.x, a.y⟩ none && grid.isWalkable ⟨a.x, b.y⟩ none

/-- The perimeter cells of the square ring of the given radius around a
goal, produced in the scan order of nearestReachableGoal: row by row,
keeping the cells on the edge of the box. -/
def ringCells (goal : NavPos) (r : Nat) : List NavPos :=
  (List.range (2 * r + 1)).flatMap fun (dy : Nat) =>
    (List.range (2 * r + 1)).filterMap fun (dx : Nat) =>
      let x : Int := goal.x - (r : Int) + (dx : Int)
      let y : Int := goal.y - (r : Int) + (dy : Int)
      if x = goal.x - (r : Int) ∨ x = goal.x + (r : Int) ∨
          y = goal.y - (r : Int) ∨ y = goal.y + (r : Int)
      then some ⟨x, y⟩ else none

/-- Scan of the expanding rings: first walkable perimeter cell of the
first ring that has one. -/
def nearestReachableGoalAux (grid : NavigationGrid) (blockedGoal : NavPos) :
    List Nat → Option NavPos
  | [] => none
  | r :: rs =>
    match (ringCells blockedGoal r).find? (fun c => grid.isWalkable c none) with
    | some c => some c
    | none => nearestReachableGoalAux grid blockedGoal rs

/-- nearestReachableGoal of pathfinding.ts (lines 91-116): expanding
square rings of radius 1 up to maxRadius around the blocked goal. -/
def nearestReachableGoal (blockedGoal : NavPos) (grid : NavigationGrid)
    (maxRadius : Nat) : Option NavPos :=
  nearestReachableGoalAux grid blockedGoal ((List.range maxRadius).map (· + 1))

/-- Lookup in a node list keyed by position (JS Map get). -/
def lookupN : List NavNode → NavPos → Option NavNode
  | [], _ => none
  | n :: t, k => if n.pos = k then some n else lookupN t k

/-- Keyed insert in a node list (JS Map set): replace in place or
append. -/
def setN : List NavNode → NavNode → List NavNode
  | [], node => [node]
  | n :: t, node => if n.pos = node.pos then node :: t else n :: setN t node

/-- Keyed removal from a node list (JS Map delete). -/
def delN : List NavNode → NavPos → List NavNode
  | [], _ => []
  | n :: t, k => if n.pos = k then t else n :: delN t k

/-- The open-set minimum scan of the source loop (pathfinding.ts lines
167-172): first node wins ties because the comparison is strict. -/
def pickBest : List NavNode → Option NavNode
  | [] => none
  | n :: t => some (t.foldl (fun cur m => if m.f < cur.f then m else cur) n)

/-- The neighbor-expansion loop body (pathfinding.ts lines 189-220):
walkability, corner-cut, closed-set, infinite-cost and worse-g filters,
then a keyed insert into the open set. -/
def expandNeighbors (grid : NavigationGrid)
    (allowDiagonal preventCornerCutting : Bool) (resolvedGoal : NavPos)
    (current : NavNode) (closed : List NavNode) :
    List NavNode → List NavPos → List NavNode
  | openSet, [] => openSet
  | openSet, next :: rest =>
    let openSet' :=
      if !grid.isWalkable next none then openSet
      else if !canTraverseDiagonal current.pos next grid preventCornerCutting then
        openSet
      else if (lookupN closed next).isSome then openSet
      else
        match grid.movementCost next with
        | none => openSet
        | some cost =>
          let tentativeG := current.g + stepDistance current.pos next * cost
          let worse :=
            match lookupN openSet next with
            | some existing => decide (existing.g ≤ tentativeG)
            | none => false
          if worse then openSet
          else
            let h := heuristic next resolvedGoal allowDiagonal
            setN openSet ⟨next, tentativeG, h, tentativeG + h, some current.pos⟩
    expandNeighbors grid allowDiagonal preventCornerCutting resolvedGoal current
      closed openSet' rest

/-- reconstructPath of pathfinding.ts in push order (end node first); the
fuel bounds the walk along parent keys, and one more than the closed-set
size always suffices because every parent was closed strictly earlier. -/
def reconstructPathAux : Nat → List NavNode → NavNode → List NavPos
  | 0, _, _ => []
  | fuel + 1, closed, cur =>
    match cur.parentKey with
    | none => [cur.pos]
    | some k =>
      match lookupN closed k with
      | none => [cur.pos]
      | some p => cur.pos :: reconstructPathAux fuel closed p

/-- reconstructPath of pathfinding.ts (lines 54-65): follow parent keys
through the closed set, then reverse. -/
def reconstructPath (closed : List NavNode) (endNode : NavNode) : List NavPos :=
  (reconstructPathAux (closed.length + 1) closed endNode).reverse

/-- The A-star main loop of findNavigationPath (pathfinding.ts lines
163-221), with the remaining iteration budget as fuel.  The grid is
threaded through and handed back so that the absence of writes is part
of the statement of the embedding. -/
def astarLoop (grid : NavigationGrid)
    (allowDiagonal preventCornerCutting : Bool) (resolvedGoal : NavPos)
    (usedFallback : Bool) :
    Nat → List NavNode → List NavNode → NavigationPathResult × NavigationGrid
  | 0, _, _ => (⟨[], none, usedFallback⟩, grid)
  | fuel + 1, openSet, closed =>
    match pickBest openSet with
    | none => (⟨[], none, usedFallback⟩, grid)
    | some current =>
      let openSet' := delN openSet current.pos
      let closed' := setN closed current
      if current.pos = resolvedGoal then
        (⟨reconstructPath closed' current, some resolvedGoal, usedFallback⟩, grid)
      else
        astarLoop grid allowDiagonal preventCornerCutting resolvedGoal
          usedFallback fuel
          (expandNeighbors grid allowDiagonal preventCornerCutting resolvedGoal
            current closed' openSet' (neighbors current.pos allowDiagonal))
          closed'

/-- Shared tail of findNavigationPath once the goal is resolved
(pathfinding.ts lines 147-224): immediate return when the start is the
resolved goal, otherwise the A-star loop from the start node. -/
def findNavigationPathCore (grid : NavigationGrid)
    (allowDiagonal preventCornerCutting : Bool) (maxIterations : Nat)
    (start resolvedGoal : NavPos) (usedFallback : Bool) :
    NavigationPathResult × NavigationGrid :=
  if start = resolvedGoal then
    (⟨[start], some resolvedGoal, usedFallback⟩, grid)
  else
    let h0 := heuristic start resolvedGoal allowDiagonal
    astarLoop grid allowDiagonal preventCornerCutting resolvedGoal usedFallback
      maxIterations [⟨start, 0, h0, h0, none⟩] []

/-- findNavigationPath of pathfinding.ts (lines 118-224).  The pair
returns the source result together with the final state of the grid
object the search was handed. -/
def findNavigationPath (start goal : NavPos) (grid : NavigationGrid)
    (options : NavigationPathOptions) : NavigationPathResult × NavigationGrid :=
  let allowDiagonal := options.allowDiagonal.getD true
  let preventCornerCutting := options.preventCornerCutting.getD true
  let allowTargetFallback := options.allowTargetFallback.getD false
  let maxIterations := options.maxIterations.getD 5000
  let maxFallbackRadius := options.maxFallbackRadius.getD 12
  if !grid.isWalkable start none then (⟨[], none, false⟩, grid)
  else if grid.isWalkable goal none then
    findNavigationPathCore grid allowDiagonal preventCornerCutting maxIterations
      start goal false
  else if !allowTargetFallback then (⟨[], none, false⟩, grid)
  else
    match nearestReachableGoal goal grid maxFallbackRadius with
    | none => (⟨[], none, false⟩, grid)
    | some c =>
      findNavigationPathCore grid allowDiagonal preventCornerCutting
        maxIterations start c true

/-- The A-star loop hands back the grid it was given, whatever the fuel
and the node sets. -/
theorem astarLoop_grid_eq (grid : NavigationGrid) (ad pc : Bool)
    (rg : NavPos) (uf : Bool) :
    ∀ fuel openSet closed,
      (astarLoop grid ad pc rg uf fuel openSet closed).2 = grid := by
  intro fuel
  induction fuel with
  | zero => intro o c; rfl
  | succ n ih =>
    intro o c
    unfold astarLoop
    cases pickBest o with
    | none => rfl
    | some current =>
      by_cases h : current.pos = rg
      · simp [h]
      · simp [h, ih]

/-- C9: a findNavigationPath call, in particular a failing one, performs
no write to the grid state (tiles, obstacles, door states, occupancy):
the grid handed back is the grid passed in.  The reservation table lives
in the coordinator and is never passed to the search. -/
theorem findNavigationPath_no_writes (start goal : NavPos)
    (grid : NavigationGrid) (options : NavigationPathOptions) :
    (findNavigationPath start goal grid options).2 = grid := by
  unfold findNavigationPath findNavigationPathCore
  by_cases hs : grid.isWalkable start none
  · by_cases hg : grid.isWalkable goal none
    · by_cases he : start = goal
      · simp [hs, hg, he]
      · simp [hs, hg, he, astarLoop_grid_eq]
    · by_cases hf : options.allowTargetFallback.getD false
      · cases hn : nearestReachableGoal goal grid (options.maxFallbackRadius.getD 12) with
        | none => simp [hs, hg, hf, hn]
        | some c =>
          by_cases he : start = c
          · simp only [hs, hg, hf, hn, he]
            split <;> rfl
          · simp [hs, hg, hf, hn, he, astarLoop_grid_eq]
      · simp [hs, hg, hf]
  · simp [hs]

/-- Grid for the preserved-usedFallback run: a walkable start at the
origin, an unreachable walkable cell next to the blocked goal at
five-five, nothing else. -/
def fallbackIslandGrid : NavigationGrid :=
  (NavigationGrid.setTile {} { pos := ⟨0, 0⟩, walkable := true, blocksLos := false, terrainCost := 1 }).setTile
    { pos := ⟨5, 4⟩, walkable := true, blocksLos := false, terrainCost := 1 }

/-- C10: on this input fallback resolution succeeds (so usedFallback is
set) and the search then exhausts its open set without reaching the
resolved goal; the failure result keeps usedFallback true while the
path is empty and resolvedGoal is null. -/
theorem failed_search_preserves_usedFallback :
    (findNavigationPath ⟨0, 0⟩ ⟨5, 5⟩ fallbackIslandGrid
      { allowTargetFallback := some true }).1 =
      { path := [], resolvedGoal := none, usedFallback := true } := by
  decide

/-- Chebyshev distance between two grid positions. -/
def chebyshev (a b : NavPos) : Nat :=
  max (a.x - b.x).natAbs (a.y - b.y).natAbs

/-- Every cell produced for the ring of radius r sits at Chebyshev
distance exactly r from the ring center. -/
theorem ringCells_chebyshev (goal c : NavPos) (r : Nat)
    (h : c ∈ ringCells goal r) : chebyshev c goal = r := by
  unfold ringCells at h
  rw [List.mem_flatMap] at h
  obtain ⟨dy, hdy, hc⟩ := h
  rw [List.mem_filterMap] at hc
  obtain ⟨dx, hdx, hfx⟩ := hc
  rw [List.mem_range] at hdy hdx
  by_cases hcond : (goal.x - (r : Int) + (dx : Int) = goal.x - (r : Int) ∨
      goal.x - (r : Int) + (dx : Int) = goal.x + (r : Int) ∨
      goal.y - (r : Int) + (dy : Int) = goal.y - (r : Int) ∨
      goal.y - (r : Int) + (dy : Int) = goal.y + (r : Int))
  · rw [if_pos hcond] at hfx
    obtain ⟨hx, hy⟩ : c.x = goal.x - (r : Int) + (dx : Int) ∧
        c.y = goal.y - (r : Int) + (dy : Int) := by
      cases hfx
      exact ⟨rfl, rfl⟩
    unfold chebyshev
    omega
  · rw [if_neg hcond] at hfx
    cases hfx

/-- A cell found by the ring scan is walkable and lies on one of the
scanned rings. -/
theorem nearestReachableGoalAux_props (grid : NavigationGrid)
    (blockedGoal : NavPos) :
    ∀ rs c, nearestReachableGoalAux grid blockedGoal rs = some c →
      grid.isWalkable c none = true ∧ ∃ r ∈ rs, c ∈ ringCells blockedGoal r := by
  intro rs
  induction rs with
  | nil => intro c h; cases h
  | cons r rest ih =>
    intro c h
    unfold nearestReachableGoalAux at h
    cases hfind : (ringCells blockedGoal r).find? (fun c => grid.isWalkable c none) with
    | some c0 =>
      rw [hfind] at h
      cases h
      have hp := List.find?_some hfind
      have hm := List.mem_of_find?_eq_some hfind
      exact ⟨by simpa using hp, ⟨r, List.mem_cons_self r rest, hm⟩⟩
    | none =>
      rw [hfind] at h
      obtain ⟨hw, r0, hr0, hc0⟩ := ih c h
      exact ⟨hw, ⟨r0, List.mem_cons_of_mem r hr0, hc0⟩⟩

/-- nearestReachableGoal returns a walkable cell whose Chebyshev
distance from the blocked goal is between 1 and the radius bound. -/
theorem nearestReachableGoal_props (blockedGoal : NavPos)
    (grid : NavigationGrid) (maxRadius : Nat) (c : NavPos)
    (h : nearestReachableGoal blockedGoal grid maxRadius = some c) :
    grid.isWalkable c none = true ∧
    1 ≤ chebyshev c blockedGoal ∧ chebyshev c blockedGoal ≤ maxRadius := by
  obtain ⟨hw, r, hr, hc⟩ := nearestReachableGoalAux_props grid blockedGoal _ c h
  rw [List.mem_map] at hr
  obtain ⟨r0, hr0, rfl⟩ := hr
  rw [List.mem_range] at hr0
  have hd := ringCells_chebyshev blockedGoal c (r0 + 1) hc
  exact ⟨hw, by omega, by omega⟩

/-- In every outcome of the A-star loop the resolvedGoal field is null
or the resolved goal the loop was started with, and the usedFallback
field is the value it was started with. -/
theorem astarLoop_fields (grid : NavigationGrid) (ad pc : Bool)
    (rg : NavPos) (uf : Bool) :
    ∀ fuel openSet closed,
      ((astarLoop grid ad pc rg uf fuel openSet closed).1.resolvedGoal = none ∨
        (astarLoop grid ad pc rg uf fuel openSet closed).1.resolvedGoal = some rg) ∧
      (astarLoop grid ad pc rg uf fuel openSet closed).1.usedFallback = uf := by
  intro fuel
  induction fuel with
  | zero => intro o c; exact ⟨Or.inl rfl, rfl⟩
  | succ n ih =>
    intro o c
    unfold astarLoop
    cases pickBest o with
    | none => exact ⟨Or.inl rfl, rfl⟩
    | some current =>
      by_cases h : current.pos = rg
      · simp [h]
      · simp only [h, if_false]
        exact ih _ _

/-- The shared tail keeps the resolved goal and fallback flag likewise. -/
theorem findNavigationPathCore_fields (grid : NavigationGrid)
    (ad pc : Bool) (mi : Nat) (start rg : NavPos) (uf : Bool) :
    ((findNavigationPathCore grid ad pc mi start rg uf).1.resolvedGoal = none ∨
      (findNavigationPathCore grid ad pc mi start rg uf).1.resolvedGoal = some rg) ∧
    (findNavigationPathCore grid ad pc mi start rg uf).1.usedFallback = uf := by
  unfold findNavigationPathCore
  by_cases h : start = rg
  · simp [h]
  · simp only [h, if_false]
    exact astarLoop_fields grid ad pc rg uf mi _ _

/-- C1: with a walkable start, an unwalkable goal and fallback enabled,
a non-null resolvedGoal is walkable, lies within maxFallbackRadius of
the original goal in Chebyshev distance, differs from the original goal,
and the result reports usedFallback. -/
theorem fallback_resolvedGoal_props (start goal : NavPos)
    (grid : NavigationGrid) (options : NavigationPathOptions)
    (hs : grid.isWalkable start none = true)
    (hg : grid.isWalkable goal none = false)
    (hf : options.allowTargetFallback.getD false = true) :
    ∀ rg, (findNavigationPath start goal grid options).1.resolvedGoal = some rg →
      grid.isWalkable rg none = true ∧
      chebyshev rg goal ≤ options.maxFallbackRadius.getD 12 ∧
      rg ≠ goal ∧
      (findNavigationPath start goal grid options).1.usedFallback = true := by
  intro rg hrg
  have heq : findNavigationPath start goal grid options =
      (match nearestReachableGoal goal grid (options.maxFallbackRadius.getD 12) with
        | none => ({ path := [], resolvedGoal := none, usedFallback := false }, grid)
        | some c =>
          findNavigationPathCore grid (options.allowDiagonal.getD true)
            (options.preventCornerCutting.getD true)
            (options.maxIterations.getD 5000) start c true) := by
    simp [findNavigationPath, hs, hg, hf]
  cases hn : nearestReachableGoal goal grid (options.maxFallbackRadius.getD 12) with
  | none =>
    rw [hn] at heq
    rw [heq] at hrg
    simp at hrg
  | some c =>
    rw [hn] at heq
    dsimp only at heq
    rw [heq] at hrg ⊢
    obtain ⟨hwalk, h1, h2⟩ := nearestReachableGoal_props goal grid _ c hn
    have hfields := findNavigationPathCore_fields grid
      (options.allowDiagonal.getD true) (options.preventCornerCutting.getD true)
      (options.maxIterations.getD 5000) start c true
    have hrgc : rg = c := by
      rcases hfields.1 with hnone | hsome
      · rw [hnone] at hrg; cases hrg
      · rw [hsome] at hrg; cases hrg; rfl
    subst hrgc
    refine ⟨hwalk, h2, ?_, hfields.2⟩
    intro heq2
    rw [heq2] at h1
    unfold chebyshev at h1
    omega

/-- Two walkable tiles and an unwalkable goal one step beyond them, for
the fallback witness. -/
def fallbackWitnessGrid : NavigationGrid :=
  (NavigationGrid.setTile {} { pos := ⟨0, 0⟩, walkable := true, blocksLos := false, terrainCost := 1 }).setTile
    { pos := ⟨1, 0⟩, walkable := true, blocksLos := false, terrainCost := 1 }

/-- Witness for the fallback claim on a concrete grid: the goal two-zero
has no tile and the ring scan resolves the walkable neighbor one-zero. -/
theorem fallback_resolvedGoal_witness :
    fallbackWitnessGrid.isWalkable ⟨1, 0⟩ none = true ∧
    chebyshev ⟨1, 0⟩ ⟨2, 0⟩ ≤ 12 ∧
    (⟨1, 0⟩ : NavPos) ≠ ⟨2, 0⟩ ∧
    (findNavigationPath ⟨0, 0⟩ ⟨2, 0⟩ fallbackWitnessGrid
      { allowTargetFallback := some true }).1.usedFallback = true :=
  fallback_resolvedGoal_props ⟨0, 0⟩ ⟨2, 0⟩ fallbackWitnessGrid
    { allowTargetFallback := some true } (by decide) (by decide) (by decide)
    ⟨1, 0⟩ (by decide)

/-- A successful node lookup returns a member carrying the key. -/
theorem lookupN_mem : ∀ (l : List NavNode) (k : NavPos) (n : NavNode),
    lookupN l k = some n → n ∈ l ∧ n.pos = k := by
  intro l
  induction l with
  | nil => intro k n h; cases h
  | cons m t ih =>
    intro k n h
    unfold lookupN at h
    by_cases hm : m.pos = k
    · rw [if_pos hm] at h
      cases h
      exact ⟨List.mem_cons_self m t, hm⟩
    · rw [if_neg hm] at h
      obtain ⟨h1, h2⟩ := ih k n h
      exact ⟨List.mem_cons_of_mem m h1, h2⟩

/-- A failed node lookup means no member carries the key. -/
theorem lookupN_eq_none_iff : ∀ (l : List NavNode) (k : NavPos),
    lookupN l k = none ↔ ∀ n ∈ l, n.pos ≠ k := by
  intro l
  induction l with
  | nil => intro k; simp [lookupN]
  | cons m t ih =>
    intro k
    unfold lookupN
    by_cases hm : m.pos = k
    · simp [hm]
    · simp [hm, ih]

/-- Lookup distributes over append when the left part succeeds. -/
theorem lookupN_append_of_some (l l2 : List NavNode) (k : NavPos) (n : NavNode)
    (h : lookupN l k = some n) : lookupN (l ++ l2) k = some n := by
  induction l with
  | nil => cases h
  | cons m t ih =>
    rw [List.cons_append]
    simp only [lookupN] at h ⊢
    by_cases hm : m.pos = k
    · rw [if_pos hm] at h ⊢; exact h
    · rw [if_neg hm] at h ⊢; exact ih h

/-- Lookup distributes over append when the left part fails. -/
theorem lookupN_append_of_none (l l2 : List NavNode) (k : NavPos)
    (h : lookupN l k = none) : lookupN (l ++ l2) k = lookupN l2 k := by
  induction l with
  | nil => rfl
  | cons m t ih =>
    rw [List.cons_append]
    simp only [lookupN] at h ⊢
    by_cases hm : m.pos = k
    · rw [if_pos hm] at h; cases h
    · rw [if_neg hm] at h ⊢; exact ih h

/-- A keyed insert of a fresh key is an append. -/
theorem setN_eq_append (l : List NavNode) (n : NavNode)
    (h : lookupN l n.pos = none) : setN l n = l ++ [n] := by
  induction l with
  | nil => rfl
  | cons m t ih =>
    unfold lookupN at h
    unfold setN
    by_cases hm : m.pos = n.pos
    · rw [if_pos hm] at h; cases h
    · rw [if_neg hm] at h
      rw [if_neg hm, ih h]
      rfl

/-- Members after a keyed insert are the new node or old members. -/
theorem setN_mem : ∀ (l : List NavNode) (n m : NavNode),
    m ∈ setN l n → m = n ∨ m ∈ l := by
  intro l
  induction l with
  | nil =>
    intro n m h
    unfold setN at h
    rcases List.mem_singleton.mp h with h
    exact Or.inl h
  | cons a t ih =>
    intro n m h
    unfold setN at h
    by_cases ha : a.pos = n.pos
    · rw [if_pos ha] at h
      rcases List.mem_cons.mp h with h | h
      · exact Or.inl h
      · exact Or.inr (List.mem_cons_of_mem a h)
    · rw [if_neg ha] at h
      rcases List.mem_cons.mp h with h | h
      · exact Or.inr (h ▸ List.mem_cons_self a t)
      · rcases ih n m h with h | h
        · exact Or.inl h
        · exact Or.inr (List.mem_cons_of_mem a h)

/-- The keys after a keyed insert: unchanged on replacement, extended on
a fresh key. -/
theorem setN_keys (l : List NavNode) (n : NavNode) :
    (lookupN l n.pos ≠ none → (setN l n).map (·.pos) = l.map (·.pos)) ∧
    (lookupN l n.pos = none → (setN l n).map (·.pos) = l.map (·.pos) ++ [n.pos]) := by
  induction l with
  | nil => simp [lookupN, setN]
  | cons a t ih =>
    unfold lookupN setN
    by_cases ha : a.pos = n.pos
    · simp only [ha, if_pos rfl, if_true]
      constructor
      · intro _; simp [ha]
      · intro h; cases h
    · rw [if_neg ha, if_neg ha]
      constructor
      · intro h
        simp only [List.map_cons]
        rw [(ih.1 h)]
      · intro h
        simp only [List.map_cons]
        rw [(ih.2 h)]
        rfl

/-- Keyed removal yields a sublist. -/
theorem delN_sublist : ∀ (l : List NavNode) (k : NavPos),
    List.Sublist (delN l k) l := by
  intro l
  induction l with
  | nil => intro k; simp [delN]
  | cons a t ih =>
    intro k
    unfold delN
    by_cases ha : a.pos = k
    · rw [if_pos ha]; exact List.sublist_cons_self a t
    · rw [if_neg ha]; exact List.Sublist.cons₂ a (ih k)

/-- With nodup keys, members surviving a keyed removal are old members
with a different key. -/
theorem mem_delN_of_nodup : ∀ (l : List NavNode) (k : NavPos) (m : NavNode),
    (l.map (·.pos)).Nodup → m ∈ delN l k → m ∈ l ∧ m.pos ≠ k := by
  intro l
  induction l with
  | nil => intro k m _ h; cases h
  | cons a t ih =>
    intro k m hnd h
    rw [List.map_cons, List.nodup_cons] at hnd
    unfold delN at h
    by_cases ha : a.pos = k
    · rw [if_pos ha] at h
      refine ⟨List.mem_cons_of_mem a h, ?_⟩
      intro hk
      apply hnd.1
      rw [ha, ← hk]
      exact List.mem_map_of_mem (·.pos) h
    · rw [if_neg ha] at h
      rcases List.mem_cons.mp h with h | h
      · exact ⟨h ▸ List.mem_cons_self a t, h ▸ ha⟩
      · obtain ⟨h1, h2⟩ := ih k m hnd.2 h
        exact ⟨List.mem_cons_of_mem a h1, h2⟩

/-- The best-node scan returns a member of the open set. -/
theorem pickBest_mem : ∀ (l : List NavNode) (n : NavNode),
    pickBest l = some n → n ∈ l := by
  intro l n h
  cases l with
  | nil => cases h
  | cons a t =>
    unfold pickBest at h
    cases h
    have : ∀ (t2 : List NavNode) (cur : NavNode), cur ∈ a :: t →
        (∀ x ∈ t2, x ∈ a :: t) →
        t2.foldl (fun cur m => if m.f < cur.f then m else cur) cur ∈ a :: t := by
      intro t2
      induction t2 with
      | nil => intro cur hcur _; exact hcur
      | cons b t3 ih =>
        intro cur hcur hsub
        simp only [List.foldl_cons]
        by_cases hb : b.f < cur.f
        · rw [if_pos hb]
          exact ih b (hsub b (List.mem_cons_self b t3))
            (fun x hx => hsub x (List.mem_cons_of_mem b hx))
        · rw [if_neg hb]
          exact ih cur hcur (fun x hx => hsub x (List.mem_cons_of_mem b hx))
    exact this t a (List.mem_cons_self a t) (fun x hx => List.mem_cons_of_mem a hx)

/-- Invariant of the A-star loop state: every recorded node sits on a
walkable cell, every parent key resolves in the closed set to a node
from which the step passed the corner-cut filter, open keys are unique,
and no open key is closed. -/
structure AInv (grid : NavigationGrid) (pc : Bool)
    (openSet closed : List NavNode) : Prop where
  openWalk : ∀ n ∈ openSet, grid.isWalkable n.pos none = true
  closedWalk : ∀ n ∈ closed, grid.isWalkable n.pos none = true
  openPar : ∀ n ∈ openSet, ∀ k, n.parentKey = some k →
    ∃ p, lookupN closed k = some p ∧
      canTraverseDiagonal p.pos n.pos grid pc = true
  closedPar : ∀ n ∈ closed, ∀ k, n.parentKey = some k →
    ∃ p, lookupN closed k = some p ∧
      canTraverseDiagonal p.pos n.pos grid pc = true
  disj : ∀ n ∈ openSet, lookupN closed n.pos = none
  openKeysNodup : (openSet.map (·.pos)).Nodup

/-- Closing the picked node preserves the invariant; the closed set
grows by appending the node. -/
theorem AInv_close (grid : NavigationGrid) (pc : Bool)
    (openSet closed : List NavNode) (cur : NavNode)
    (hinv : AInv grid pc openSet closed) (hcur : cur ∈ openSet) :
    setN closed cur = closed ++ [cur] ∧
    AInv grid pc (delN openSet cur.pos) (closed ++ [cur]) := by
  have hnone : lookupN closed cur.pos = none := hinv.disj cur hcur
  have happ : setN closed cur = closed ++ [cur] := setN_eq_append closed cur hnone
  refine ⟨happ, ?_⟩
  have hstable : ∀ k p, lookupN closed k = some p →
      lookupN (closed ++ [cur]) k = some p := by
    intro k p hp
    exact lookupN_append_of_some closed [cur] k p hp
  constructor
  · intro n hn
    exact hinv.openWalk n (mem_delN_of_nodup openSet cur.pos n
      hinv.openKeysNodup hn).1
  · intro n hn
    rcases List.mem_append.mp hn with hn | hn
    · exact hinv.closedWalk n hn
    · rw [List.mem_singleton.mp hn]
      exact hinv.openWalk cur hcur
  · intro n hn k hk
    obtain ⟨p, hp, hct⟩ := hinv.openPar n
      (mem_delN_of_nodup openSet cur.pos n hinv.openKeysNodup hn).1 k hk
    exact ⟨p, hstable k p hp, hct⟩
  · intro n hn k hk
    rcases List.mem_append.mp hn with hn | hn
    · obtain ⟨p, hp, hct⟩ := hinv.closedPar n hn k hk
      exact ⟨p, hstable k p hp, hct⟩
    · rw [List.mem_singleton.mp hn] at hk ⊢
      obtain ⟨p, hp, hct⟩ := hinv.openPar cur hcur k hk
      exact ⟨p, hstable k p hp, hct⟩
  · intro n hn
    obtain ⟨hmem, hne⟩ := mem_delN_of_nodup openSet cur.pos n
      hinv.openKeysNodup hn
    rw [lookupN_append_of_none closed [cur] n.pos (hinv.disj n hmem)]
    simp only [lookupN]
    rw [if_neg (fun h => hne h.symm)]
  · exact List.Nodup.sublist
      (List.Sublist.map (·.pos) (delN_sublist openSet cur.pos))
      hinv.openKeysNodup

/-- One keyed insert of a checked neighbor node preserves the open-set
part of the invariant. -/
theorem AInv_insert (grid : NavigationGrid) (pc : Bool)
    (openSet closed : List NavNode) (node : NavNode)
    (hinv : AInv grid pc openSet closed)
    (hw : grid.isWalkable node.pos none = true)
    (hpar : ∀ k, node.parentKey = some k →
      ∃ p, lookupN closed k = some p ∧
        canTraverseDiagonal p.pos node.pos grid pc = true)
    (hfresh : lookupN closed node.pos = none) :
    AInv grid pc (setN openSet node) closed := by
  constructor
  · intro n hn
    rcases setN_mem openSet node n hn with rfl | hn
    · exact hw
    · exact hinv.openWalk n hn
  · exact hinv.closedWalk
  · intro n hn k hk
    rcases setN_mem openSet node n hn with rfl | hn
    · exact hpar k hk
    · exact hinv.openPar n hn k hk
  · exact hinv.closedPar
  · intro n hn
    rcases setN_mem openSet node n hn with rfl | hn
    · exact hfresh
    · exact hinv.disj n hn
  · cases hl : lookupN openSet node.pos with
    | some m =>
      rw [(setN_keys openSet node).1 (by rw [hl]; intro h; cases h)]
      exact hinv.openKeysNodup
    | none =>
      rw [(setN_keys openSet node).2 hl]
      rw [List.nodup_append]
      refine ⟨hinv.openKeysNodup, List.nodup_singleton _, ?_⟩
      intro a ha
      rw [List.mem_map] at ha
      obtain ⟨n, hn, rfl⟩ := ha
      have := (lookupN_eq_none_iff openSet node.pos).mp hl n hn
      simp [this]

/-- The whole neighbor-expansion pass preserves the invariant when the
expanding node is closed. -/
theorem AInv_expand (grid : NavigationGrid) (ad pc : Bool) (rg : NavPos)
    (cur : NavNode) (closed : List NavNode)
    (hcur : lookupN closed cur.pos = some cur) :
    ∀ ns openSet, AInv grid pc openSet closed →
      AInv grid pc (expandNeighbors grid ad pc rg cur closed openSet ns) closed := by
  intro ns
  induction ns with
  | nil => intro o h; exact h
  | cons next rest ih =>
    intro o h
    simp only [expandNeighbors]
    apply ih
    cases hw : grid.isWalkable next none with
    | false => simpa [hw] using h
    | true =>
      cases hct : canTraverseDiagonal cur.pos next grid pc with
      | false => simpa [hw, hct] using h
      | true =>
        cases hcl : lookupN closed next with
        | some m => simpa [hw, hct, hcl] using h
        | none =>
          cases hmc : grid.movementCost next with
          | none => simpa [hw, hct, hcl, hmc] using h
          | some cost =>
            simp only [hw, hct, hcl, hmc, Bool.not_true, Bool.false_eq_true,
              if_false, Option.isSome_none, Option.isSome_some]
            cases hworse : (match lookupN o next with
              | some existing =>
                decide (existing.g ≤ cur.g + stepDistance cur.pos next * cost)
              | none => false) with
            | true => simpa [hworse] using h
            | false =>
              simp only [hworse, Bool.false_eq_true, if_false]
              apply AInv_insert grid pc o closed _ h hw
              · intro k hk
                cases hk
                exact ⟨cur, hcur, hct⟩
              · exact hcl

/-- Walking the parent chain from a closed node yields, in push order,
walkable cells whose consecutive pairs (child before parent) passed the
corner-cut filter, and the walk starts at the node itself. -/
theorem reconstructPathAux_props (grid : NavigationGrid) (pc : Bool)
    (closed : List NavNode)
    (hW : ∀ n ∈ closed, grid.isWalkable n.pos none = true)
    (hP : ∀ n ∈ closed, ∀ k, n.parentKey = some k →
      ∃ p, lookupN closed k = some p ∧
        canTraverseDiagonal p.pos n.pos grid pc = true) :
    ∀ fuel n, n ∈ closed →
      (∀ q ∈ reconstructPathAux fuel closed n, grid.isWalkable q none = true) ∧
      List.Chain' (fun b a => canTraverseDiagonal a b grid pc = true)
        (reconstructPathAux fuel closed n) ∧
      (fuel ≠ 0 → (reconstructPathAux fuel closed n).head? = some n.pos) := by
  intro fuel
  induction fuel with
  | zero =>
    intro n _
    exact ⟨fun q hq => absurd hq (List.not_mem_nil q), List.chain'_nil,
      fun h => absurd rfl h⟩
  | succ m ih =>
    intro n hn
    cases hpk : n.parentKey with
    | none =>
      simp only [reconstructPathAux, hpk]
      refine ⟨?_, List.chain'_singleton _, fun _ => rfl⟩
      intro q hq
      rw [List.mem_singleton.mp hq]
      exact hW n hn
    | some k =>
      obtain ⟨p, hp, hct⟩ := hP n hn k hpk
      simp only [reconstructPathAux, hpk, hp]
      have hpmem := (lookupN_mem closed k p hp).1
      obtain ⟨ihW, ihC, ihH⟩ := ih p hpmem
      refine ⟨?_, ?_, fun _ => rfl⟩
      · intro q hq
        rcases List.mem_cons.mp hq with rfl | hq
        · exact hW n hn
        · exact ihW q hq
      · rw [List.chain'_cons']
        refine ⟨?_, ihC⟩
        intro b hb
        cases m with
        | zero => cases hb
        | succ m2 =>
          rw [ihH (Nat.succ_ne_zero m2)] at hb
          cases hb
          exact hct

/-- Every path produced by the A-star loop consists of walkable cells
and its consecutive steps passed the corner-cut filter. -/
theorem astarLoop_path_props (grid : NavigationGrid) (ad pc : Bool)
    (rg : NavPos) (uf : Bool) :
    ∀ fuel openSet closed, AInv grid pc openSet closed →
      (∀ q ∈ (astarLoop grid ad pc rg uf fuel openSet closed).1.path,
        grid.isWalkable q none = true) ∧
      List.Chain' (fun a b => canTraverseDiagonal a b grid pc = true)
        (astarLoop grid ad pc rg uf fuel openSet closed).1.path := by
  intro fuel
  induction fuel with
  | zero =>
    intro o c _
    exact ⟨fun q hq => absurd hq (List.not_mem_nil q), List.chain'_nil⟩
  | succ m ih =>
    intro o c hinv
    unfold astarLoop
    cases hpick : pickBest o with
    | none => exact ⟨fun q hq => absurd hq (List.not_mem_nil q), List.chain'_nil⟩
    | some cur =>
      have hcurmem := pickBest_mem o cur hpick
      obtain ⟨happ, hinv'⟩ := AInv_close grid pc o c cur hinv hcurmem
      have hcurlook : lookupN (c ++ [cur]) cur.pos = some cur := by
        rw [lookupN_append_of_none c [cur] cur.pos (hinv.disj cur hcurmem)]
        simp [lookupN]
      by_cases hgoal : cur.pos = rg
      · simp only [hgoal, if_true]
        have hcurmem' : cur ∈ c ++ [cur] :=
          List.mem_append.mpr (Or.inr (List.mem_singleton_self cur))
        obtain ⟨hWall, hChain, _⟩ := reconstructPathAux_props grid pc
          (c ++ [cur]) hinv'.closedWalk hinv'.closedPar
          ((c ++ [cur]).length + 1) cur hcurmem'
        constructor
        · intro q hq
          apply hWall
          unfold reconstructPath at hq
          rw [happ] at hq
          exact List.mem_reverse.mp hq
        · unfold reconstructPath
          rw [happ]
          rw [List.chain'_reverse]
          exact hChain
      · simp only [hgoal, if_false]
        apply ih
        rw [happ]
        exact AInv_expand grid ad pc rg cur (c ++ [cur]) hcurlook _ _ hinv'

/-- Paths out of the shared search tail: every cell is walkable and
consecutive steps passed the corner-cut filter. -/
theorem findNavigationPathCore_path_props (grid : NavigationGrid)
    (ad pc : Bool) (mi : Nat) (start rg : NavPos) (uf : Bool)
    (hs : grid.isWalkable start none = true) :
    (∀ q ∈ (findNavigationPathCore grid ad pc mi start rg uf).1.path,
      grid.isWalkable q none = true) ∧
    List.Chain' (fun a b => canTraverseDiagonal a b grid pc = true)
      (findNavigationPathCore grid ad pc mi start rg uf).1.path := by
  unfold findNavigationPathCore
  by_cases he : start = rg
  · simp only [he, if_true]
    refine ⟨?_, List.chain'_singleton _⟩
    intro q hq
    rw [List.mem_singleton.mp hq]
    rw [← he]
    exact hs
  · simp only [he, if_false]
    apply astarLoop_path_props
    constructor
    · intro n hn
      rw [List.mem_singleton.mp hn]
      exact hs
    · intro n hn
      cases hn
    · intro n hn k hk
      rw [List.mem_singleton.mp hn] at hk
      cases hk
    · intro n hn k hk
      cases hn
    · intro n _
      rfl
    · exact List.nodup_singleton _

/-- Paths out of findNavigationPath: every cell is walkable and every
consecutive step passed the corner-cut filter. -/
theorem findNavigationPath_path_props (start goal : NavPos)
    (grid : NavigationGrid) (options : NavigationPathOptions) :
    (∀ q ∈ (findNavigationPath start goal grid options).1.path,
      grid.isWalkable q none = true) ∧
    List.Chain'
      (fun a b => canTraverseDiagonal a b grid
        (options.preventCornerCutting.getD true) = true)
      (findNavigationPath start goal grid options).1.path := by
  unfold findNavigationPath
  by_cases hs : grid.isWalkable start none
  · by_cases hg : grid.isWalkable goal none
    · simp only [hs, hg, Bool.not_true, Bool.false_eq_true, if_false, if_true]
      exact findNavigationPathCore_path_props grid _ _ _ start goal false hs
    · by_cases hf : options.allowTargetFallback.getD false
      · simp only [hs, hg, hf, Bool.not_true, Bool.not_false,
          Bool.false_eq_true, if_false, if_true]
        cases hn : nearestReachableGoal goal grid
            (options.maxFallbackRadius.getD 12) with
        | none =>
          simp only [hn]
          exact ⟨fun q hq => absurd hq (List.not_mem_nil q), List.chain'_nil⟩
        | some c =>
          simp only [hn]
          exact findNavigationPathCore_path_props grid _ _ _ start c true hs
      · simp only [hs, hg, hf, Bool.not_true, Bool.not_false,
          Bool.false_eq_true, if_false, if_true]
        exact ⟨fun q hq => absurd hq (List.not_mem_nil q), List.chain'_nil⟩
  · simp only [hs]
    simp only [Bool.not_false, if_true]
    exact ⟨fun q hq => absurd hq (List.not_mem_nil q), List.chain'_nil⟩

/-- A position whose obstacle lookup resolves to a wall is never
walkable, whatever body is ignored. -/
theorem wallRegisteredAt_blocks (g : NavigationGrid) (pos : NavPos)
    (h : g.wallRegisteredAt pos = true) :
    ∀ i, g.isWalkable pos i = false := by
  intro i
  unfold NavigationGrid.wallRegisteredAt NavigationGrid.getObstacleAt at h
  unfold NavigationGrid.isWalkable
  cases ht : mapGet g.tiles pos with
  | none => rfl
  | some tile =>
    cases hb : mapGet g.obstacleByPos pos with
    | none => rw [hb] at h; cases h
    | some oid =>
      rw [hb, Option.some_bind] at h
      cases ho : mapGet g.obstacles oid with
      | none => rw [ho] at h; cases h
      | some ob =>
        rw [ho] at h
        cases ob with
        | wall i2 p2 b2 => simp [hb, ho]
        | door i2 p2 st2 b2 => simp at h
        | body i2 p2 => simp at h

/-- C3: no returned path visits a position at which a wall obstacle is
registered: every cell of a returned path, start and end included, is
walkable in the grid snapshot, and a wall position is never walkable. -/
theorem path_never_contains_wall (start goal : NavPos)
    (grid : NavigationGrid) (options : NavigationPathOptions) :
    ∀ q ∈ (findNavigationPath start goal grid options).1.path,
      grid.isWalkable q none = true ∧ grid.wallRegisteredAt q = false := by
  intro q hq
  have hwalk := (findNavigationPath_path_props start goal grid options).1 q hq
  refine ⟨hwalk, ?_⟩
  cases hwr : grid.wallRegisteredAt q with
  | false => rfl
  | true =>
    rw [wallRegisteredAt_blocks grid q hwr none] at hwalk
    cases hwalk

/-- Grid with a short walkable corridor and a wall registered beside it. -/
def wallWitnessGrid : NavigationGrid :=
  ((((NavigationGrid.setTile {} { pos := ⟨0, 0⟩, walkable := true, blocksLos := false, terrainCost := 1 }).setTile
      { pos := ⟨1, 0⟩, walkable := true, blocksLos := false, terrainCost := 1 }).setTile
      { pos := ⟨2, 0⟩, walkable := true, blocksLos := false, terrainCost := 1 }).setObstacle
      (.wall "w" ⟨2, 0⟩ true))

/-- Witness for the no-wall claim: the concrete two-step path from the
corridor grid stays on walkable, wall-free cells. -/
theorem path_never_contains_wall_witness :
    wallWitnessGrid.isWalkable ⟨1, 0⟩ none = true ∧
    wallWitnessGrid.wallRegisteredAt ⟨1, 0⟩ = false :=
  path_never_contains_wall ⟨0, 0⟩ ⟨1, 0⟩ wallWitnessGrid {} ⟨1, 0⟩ (by decide)

/-- C2: with corner-cut prevention enabled, consecutive path cells that
form a diagonal step have both orthogonal corner cells walkable. -/
theorem no_corner_cutting_in_path (start goal : NavPos)
    (grid : NavigationGrid) (options : NavigationPathOptions)
    (hpc : options.preventCornerCutting.getD true = true) :
    List.Chain'
      (fun a b => a.x ≠ b.x → a.y ≠ b.y →
        grid.isWalkable ⟨b.x, a.y⟩ none = true ∧
        grid.isWalkable ⟨a.x, b.y⟩ none = true)
      (findNavigationPath start goal grid options).1.path := by
  have h := (findNavigationPath_path_props start goal grid options).2
  rw [hpc] at h
  refine List.Chain'.imp ?_ h
  intro a b hct hdx hdy
  unfold canTraverseDiagonal at hct
  have d1 : decide (a.x ≠ b.x) = true := decide_eq_true hdx
  have d2 : decide (a.y ≠ b.y) = true := decide_eq_true hdy
  simp only [Bool.not_true, Bool.false_eq_true, if_false, d1, d2,
    Bool.and_true, Bool.not_false, if_true] at hct
  exact Bool.and_eq_true_iff.mp hct

/-- Witness for the corner-cut claim: the default options enable
prevention, applied to a concrete search on the corridor grid. -/
theorem no_corner_cutting_witness :
    List.Chain'
      (fun a b => a.x ≠ b.x → a.y ≠ b.y →
        wallWitnessGrid.isWalkable ⟨b.x, a.y⟩ none = true ∧
        wallWitnessGrid.isWalkable ⟨a.x, b.y⟩ none = true)
      (findNavigationPath ⟨0, 0⟩ ⟨1, 0⟩ wallWitnessGrid {}).1.path :=
  no_corner_cutting_in_path ⟨0, 0⟩ ⟨1, 0⟩ wallWitnessGrid {} (by decide)

/-- The door context-menu actions of PixiRenderer.ts (line 53); the
source strings open and close are openDoor and closeDoor because open is
reserved in Lean. -/
inductive DoorMenuAction where
  | openDoor
  | closeDoor
  | key
  | lockpick
deriving DecidableEq

/-- The strings the renderer reports for a door state, with n/a for an
absent state (the source door.doorState ?? n/a). -/
def doorStateText : Option DoorState → String
  | some .opened => "open"
  | some .closed => "closed"
  | some .locked => "locked"
  | none => "n/a"

/-- The slice of a rendered door entity the door actions read: its grid
cell and door state. -/
structure DoorEnt where
  grid : NavPos
  doorState : Option DoorState
deriving DecidableEq

/-- The slice of the rendering scene the movement coordinator touches:
the player position and the door entities keyed by entity id. -/
structure Scene where
  playerPos : NavPos
  doors : List (String × DoorEnt)
deriving DecidableEq

/-- RenderingScene.setEntityDoorState: false when the entity is absent
(all entities kept here are doors), else overwrite the state. -/
def Scene.setEntityDoorState (sc : Scene) (entityId : String)
    (st : DoorState) : Bool × Scene :=
  match mapGet sc.doors entityId with
  | none => (false, sc)
  | some d =>
      (true, { sc with doors := mapSet sc.doors entityId { d with doorState := some st } })

/-- The domain events the coordinator dispatches; the frame index,
timestamp and event-id strings of the source events are presentation
metadata and are not modelled.  The source dispatches the door events
with a generic type carrying the payload modelled here. -/
inductive NavEvent where
  | moveStarted (fromG toG : NavPos)
  | stepReached
  | blockedStep (tile : NavPos) (reason : String)
  | blockedPlan (target : NavPos)
  | repathStarted (attempts : Nat) (toG : NavPos)
  | repathFailed
  | doorStateChanged (doorId : String) (state : DoorState)
  | doorUnlocked (doorId : String) (action : DoorMenuAction)
deriving DecidableEq

/-- The observable outputs of the coordinator: the status callbacks and
dispatched events, in emission order. -/
inductive CoordOut where
  | movementStatus (s : String)
  | pathPreviewState (s : String)
  | commandState (s : String)
  | pathPreview (cells : List NavPos)
  | doorStateMsg (s : String)
  | event (e : NavEvent)
deriving DecidableEq

/-- PixiRenderer.applyDoorState (only called with open or closed):
overwrite the scene door state and report, silent when the scene refuses
the write. -/
def applyDoorState (sc : Scene) (doorId : String) (nextState : DoorState) :
    Scene × List CoordOut :=
  let r := sc.setEntityDoorState doorId nextState
  if !r.1 then (r.2, [])
  else
    (r.2,
      [CoordOut.movementStatus
        (if nextState = .opened then "door-opened" else "door-closed"),
      CoordOut.doorStateMsg (doorStateText (some nextState)),
      CoordOut.event (.doorStateChanged doorId nextState)])

/-- PixiRenderer.executeDoorActionAtRange (lines 1166-1208): open and
close are refused on a locked door; key and lockpick are refused unless
the door is locked and otherwise set the scene door state to closed and
report which unlock method was used.  The source consults no key or
lockpick-skill credential on this path. -/
def executeDoorActionAtRange (sc : Scene) (doorId : String) (door : DoorEnt)
    (action : DoorMenuAction) : Scene × List CoordOut :=
  match action with
  | .openDoor =>
    if door.doorState = some .locked then
      (sc, [CoordOut.movementStatus "door-locked", CoordOut.doorStateMsg "locked"])
    else applyDoorState sc doorId .opened
  | .closeDoor =>
    if door.doorState = some .locked then
      (sc, [CoordOut.movementStatus "door-locked", CoordOut.doorStateMsg "locked"])
    else applyDoorState sc doorId .closed
  | .key | .lockpick =>
    if door.doorState ≠ some .locked then
      (sc, [CoordOut.movementStatus "door-not-locked",
        CoordOut.doorStateMsg (doorStateText door.doorState)])
    else
      let r := sc.setEntityDoorState doorId .closed
      if !r.1 then (r.2, [])
      else
        (r.2,
          [CoordOut.movementStatus
            (if action = .key then "door-unlocked-key" else "door-unlocked-lockpick"),
          CoordOut.doorStateMsg "closed",
          CoordOut.event (.doorUnlocked doorId action)])

/-- A scene holding one locked demo door next to the player. -/
def lockedDoorScene : Scene :=
  { playerPos := ⟨0, 0⟩
    doors := [("door_demo_locked", { grid := ⟨1, 0⟩, doorState := some .locked })] }

/-- C6 counterexample: the claim requires key or lockpick-skill-60
credentials for unlocking a locked door; the renderer passes no
credential at all on this path, so an actor with no key and lockpick
skill 0 still gets a successful door-unlocked-lockpick and the door
set to closed, where the claim requires a refusal. -/
theorem door_unlock_no_credential_counterexample :
    (executeDoorActionAtRange lockedDoorScene "door_demo_locked"
        { grid := ⟨1, 0⟩, doorState := some .locked } .lockpick).2 =
      [CoordOut.movementStatus "door-unlocked-lockpick",
        CoordOut.doorStateMsg "closed",
        CoordOut.event (.doorUnlocked "door_demo_locked" .lockpick)] ∧
    mapGet (executeDoorActionAtRange lockedDoorScene "door_demo_locked"
        { grid := ⟨1, 0⟩, doorState := some .locked } .lockpick).1.doors
      "door_demo_locked" =
      some { grid := ⟨1, 0⟩, doorState := some .closed } := by
  decide

/-- C6 amended: the key and lockpick actions on a locked door succeed
unconditionally (no credential is consulted), leave the door in state
closed and report which unlock method was used; when the door is not
locked they are rejected with door-not-locked and the scene is
untouched. -/
theorem door_key_lockpick_amended (sc : Scene) (doorId : String)
    (door : DoorEnt) (action : DoorMenuAction)
    (hdoor : mapGet sc.doors doorId = some door)
    (hact : action = .key ∨ action = .lockpick) :
    (door.doorState = some .locked →
      (executeDoorActionAtRange sc doorId door action).2 =
        [CoordOut.movementStatus
          (if action = .key then "door-unlocked-key" else "door-unlocked-lockpick"),
        CoordOut.doorStateMsg "closed",
        CoordOut.event (.doorUnlocked doorId action)] ∧
      mapGet (executeDoorActionAtRange sc doorId door action).1.doors doorId =
        some { door with doorState := some .closed }) ∧
    (door.doorState ≠ some .locked →
      (executeDoorActionAtRange sc doorId door action).2 =
        [CoordOut.movementStatus "door-not-locked",
          CoordOut.doorStateMsg (doorStateText door.doorState)] ∧
      (executeDoorActionAtRange sc doorId door action).1 = sc) := by
  have hset : sc.setEntityDoorState doorId .closed =
      (true, { sc with doors := mapSet sc.doors doorId { door with doorState := some .closed } }) := by
    unfold Scene.setEntityDoorState
    rw [hdoor]
  constructor
  · intro hlocked
    rcases hact with rfl | rfl <;>
      simp [executeDoorActionAtRange, hlocked, hset, mapGet_mapSet_self]
  · intro hnot
    rcases hact with rfl | rfl <;>
      simp [executeDoorActionAtRange, hnot]

/-- Witness for the amended key/lockpick statement on the concrete
locked demo door. -/
theorem door_key_lockpick_witness :
    (executeDoorActionAtRange lockedDoorScene "door_demo_locked"
        { grid := ⟨1, 0⟩, doorState := some .locked } .key).2 =
      [CoordOut.movementStatus "door-unlocked-key",
        CoordOut.doorStateMsg "closed",
        CoordOut.event (.doorUnlocked "door_demo_locked" .key)] ∧
    mapGet (executeDoorActionAtRange lockedDoorScene "door_demo_locked"
        { grid := ⟨1, 0⟩, doorState := some .locked } .key).1.doors
      "door_demo_locked" =
      some { grid := ⟨1, 0⟩, doorState := some .closed } := by
  have h := (door_key_lockpick_amended lockedDoorScene "door_demo_locked"
    { grid := ⟨1, 0⟩, doorState := some .locked } .key (by decide)
    (Or.inl rfl)).1 (by decide)
  simpa using h

/-- PixiRenderer.isAdjacent (lines 1274-1278): Chebyshev distance 1,
excluding the cell itself. -/
def isAdjacent (a b : NavPos) : Bool :=
  let dx := (a.x - b.x).natAbs
  let dy := (a.y - b.y).natAbs
  decide (dx ≤ 1) && decide (dy ≤ 1) && (decide (dx ≠ 0) || decide (dy ≠ 0))

/-- The fixed per-cell step duration moveStepMs of PixiRenderer.ts. -/
def moveStepMs : ℚ := 120

/-- The fixed re-path budget maxRepathAttempts of PixiRenderer.ts. -/
def maxRepathAttempts : Nat := 3

/-- The per-actor movement session state of the coordinator
(PixiRenderer.ts lines 183-202), plus the shared reservation table. -/
structure Coordinator where
  playerPath : List NavPos := []
  playerPathIndex : Nat := 0
  playerTarget : Option NavPos := none
  queuedTarget : Option NavPos := none
  activeDestination : Option NavPos := none
  moveAccumulatorMs : ℚ := 0
  repathAttempts : Nat := 0
  reservedTiles : List (NavPos × String) := []
  pendingDoorInteraction : Option (String × DoorMenuAction) := none
deriving DecidableEq

/-- The option record the coordinator passes to every search it issues
(diagonals on, corner-cut prevention on, radius 8, iteration cap 6000). -/
def plannerOptions (allowTargetFallback : Bool) : NavigationPathOptions :=
  { allowDiagonal := some true
    preventCornerCutting := some true
    allowTargetFallback := some allowTargetFallback
    maxFallbackRadius := some 8
    maxIterations := some 6000 }

/-- PixiRenderer.tryPlanPlayerMovement (lines 689-751): search from the
player position, refuse length-one paths with a blocked notification,
otherwise install the new session (cursor 1, accumulator and re-path
counter reset) and announce the move. -/
def tryPlanPlayerMovement (navGrid : NavigationGrid)
    (playerPos targetTile : NavPos) (allowTargetFallback : Bool)
    (movementStatus : Option String) (c : Coordinator) :
    Bool × Coordinator × List CoordOut :=
  let navResult :=
    (findNavigationPath playerPos targetTile navGrid
      (plannerOptions allowTargetFallback)).1
  let path := navResult.path
  if path.length ≤ 1 then
    (false, c,
      [CoordOut.movementStatus "blocked", CoordOut.pathPreviewState "invalid",
        CoordOut.event (.blockedPlan targetTile)])
  else
    let dest := path.getLastD ⟨0, 0⟩
    (true,
      { c with
          playerPath := path
          playerPathIndex := 1
          playerTarget := some dest
          activeDestination := some dest
          moveAccumulatorMs := 0
          repathAttempts := 0 },
      [CoordOut.pathPreview path,
        CoordOut.pathPreviewState
          (if navResult.usedFallback then "fallback" else "valid"),
        CoordOut.movementStatus
          (movementStatus.getD
            (if navResult.usedFallback then "fallback-path" else "moving")),
        CoordOut.commandState "active",
        CoordOut.event (.moveStarted (path.headD ⟨0, 0⟩) dest)])

/-- PixiRenderer.tryRepath (lines 857-897): refuse without a session
target or past the attempt budget; otherwise consume one attempt,
search from the player position of the update snapshot toward the
session target, refuse length-one results, else install the new path
and announce the re-path with the attempt count. -/
def tryRepath (navGrid : NavigationGrid) (snapPlayerPos : NavPos)
    (c : Coordinator) : Bool × Coordinator × List CoordOut :=
  match c.playerTarget with
  | none => (false, c, [])
  | some target =>
    if c.repathAttempts ≥ maxRepathAttempts then (false, c, [])
    else
      let c1 := { c with repathAttempts := c.repathAttempts + 1 }
      let result :=
        (findNavigationPath snapPlayerPos target navGrid (plannerOptions true)).1
      if result.path.length ≤ 1 then (false, c1, [])
      else
        (true, { c1 with playerPath := result.path, playerPathIndex := 1 },
          [CoordOut.pathPreview result.path,
            CoordOut.movementStatus "repathing",
            CoordOut.event
              (.repathStarted c1.repathAttempts (result.path.getLastD ⟨0, 0⟩))])

/-- PixiRenderer.finishPendingDoorInteraction (lines 1144-1166): on
arrival, execute the deferred door action if the door still exists and
the player is adjacent, else report the door unreachable. -/
def finishPendingDoorInteraction (sc : Scene)
    (pending : String × DoorMenuAction) : Scene × List CoordOut :=
  match mapGet sc.doors pending.1 with
  | none => (sc, [])
  | some door =>
    if !isAdjacent sc.playerPos door.grid then
      (sc, [CoordOut.movementStatus "door-unreachable",
        CoordOut.doorStateMsg (doorStateText door.doorState)])
    else executeDoorActionAtRange sc pending.1 door pending.2

/-- The deferred-door-action step of the arrival handling: run the
pending interaction, if any, against the current scene. -/
def arrivalDoorStep (sc : Scene)
    (pd : Option (String × DoorMenuAction)) : Scene × List CoordOut :=
  match pd with
  | some pending => finishPendingDoorInteraction sc pending
  | none => (sc, [])

/-- The while loop of PixiRenderer.advancePlayerMovement (lines
759-856), fuel-bounded: each pass consumes one step duration, checks the
next cell for walkability (ignoring the mover) and foreign reservations,
re-paths on a blocked step and tears the session down when the re-path
is refused, otherwise reserves, commits the step through the scene,
releases the reservation and handles arrival (deferred door action,
queued target re-plan).  movedOk stands for the scene
updateEntityGrid result; snapPlayerPos is the player position of the
frozen update snapshot that tryRepath reads. -/
def advancePlayerMovementLoop (navGrid : NavigationGrid)
    (movedOk : NavPos → Bool) (snapPlayerPos : NavPos) :
    Nat → Coordinator → Scene → List CoordOut →
      Coordinator × Scene × List CoordOut
  | 0, c, sc, outs => (c, sc, outs)
  | fuel + 1, c, sc, outs =>
    if c.moveAccumulatorMs ≥ moveStepMs ∧
        c.playerPathIndex < c.playerPath.length then
      let c0 := { c with moveAccumulatorMs := c.moveAccumulatorMs - moveStepMs }
      let nextTile := c0.playerPath.getD c0.playerPathIndex ⟨0, 0⟩
      let reservedBlocked :=
        match mapGet c0.reservedTiles nextTile with
        | some owner => decide (owner ≠ "actor_player")
        | none => false
      let nextWalkable := navGrid.isWalkable nextTile (some "actor_player")
      if !nextWalkable || reservedBlocked then
        let outs1 := outs ++ [CoordOut.event (.blockedStep nextTile
          (if reservedBlocked then "reserved" else "occupied_or_closed"))]
        let r := tryRepath navGrid snapPlayerPos c0
        if !r.1 then
          ({ r.2.1 with
              playerPath := []
              playerPathIndex := 0
              playerTarget := none
              activeDestination := none },
            sc,
            outs1 ++ r.2.2 ++
              [CoordOut.movementStatus "repath-failed",
                CoordOut.event .repathFailed,
                CoordOut.pathPreview [], CoordOut.pathPreviewState "invalid",
                CoordOut.commandState "none"])
        else
          advancePlayerMovementLoop navGrid movedOk snapPlayerPos fuel
            r.2.1 sc (outs1 ++ r.2.2)
      else
        let c1 := { c0 with
          reservedTiles := mapSet c0.reservedTiles nextTile "actor_player" }
        if !(movedOk nextTile) then
          ({ c1 with
              playerPath := []
              playerPathIndex := 0
              playerTarget := none
              activeDestination := none
              reservedTiles := mapDel c1.reservedTiles nextTile },
            sc,
            outs ++ [CoordOut.pathPreview [], CoordOut.pathPreviewState "idle",
              CoordOut.movementStatus "blocked", CoordOut.commandState "none"])
        else
          let sc1 := { sc with playerPos := nextTile }
          let outs2 := outs ++ [CoordOut.event .stepReached]
          let c2 := { c1 with
            reservedTiles := mapDel c1.reservedTiles nextTile
            playerPathIndex := c1.playerPathIndex + 1 }
          if c2.playerPath.length ≤ c2.playerPathIndex then
            let c3 := { c2 with
              playerPath := []
              playerPathIndex := 0
              playerTarget := none
              pendingDoorInteraction := none }
            let outs3 := outs2 ++
              [CoordOut.pathPreview [], CoordOut.pathPreviewState "idle",
                CoordOut.movementStatus "arrived", CoordOut.commandState "none"]
            let doorStep := arrivalDoorStep sc1 c2.pendingDoorInteraction
            let outs4 := outs3 ++ doorStep.2
            match c3.queuedTarget with
            | some queued =>
              let c5 := { c3 with queuedTarget := none }
              let plan :=
                tryPlanPlayerMovement navGrid doorStep.1.playerPos queued true
                  none c5
              advancePlayerMovementLoop navGrid movedOk snapPlayerPos fuel
                plan.2.1 doorStep.1 (outs4 ++ plan.2.2)
            | none =>
              advancePlayerMovementLoop navGrid movedOk snapPlayerPos fuel
                { c3 with activeDestination := none } doorStep.1 outs4
          else
            advancePlayerMovementLoop navGrid movedOk snapPlayerPos fuel c2
              sc1 outs2
    else (c, sc, outs)

/-- PixiRenderer.advancePlayerMovement (lines 753-856): bail out without
a steppable session, accumulate the frame time, then run the stepping
loop.  The fuel bounds the loop; one more pass than the accumulated
step count always suffices because every pass consumes moveStepMs and
a re-plan resets the accumulator to zero. -/
def advancePlayerMovement (navGrid : NavigationGrid) (frameMs : ℚ)
    (movedOk : NavPos → Bool) (c : Coordinator) (sc : Scene) :
    Coordinator × Scene × List CoordOut :=
  if c.playerPath.length ≤ 1 ∨ c.playerPath.length ≤ c.playerPathIndex then
    (c, sc, [])
  else
    let c0 := { c with moveAccumulatorMs := c.moveAccumulatorMs + frameMs }
    let fuel := (c0.moveAccumulatorMs / moveStepMs).floor.toNat + 1
    advancePlayerMovementLoop navGrid movedOk sc.playerPos fuel c0 sc []

/-- An output list free of re-path notifications. -/
def noRepathOuts (outs : List CoordOut) : Prop :=
  (∀ a dest, CoordOut.event (.repathStarted a dest) ∉ outs) ∧
  CoordOut.event .repathFailed ∉ outs

/-- Door-state application emits no re-path notification. -/
theorem applyDoorState_noRepath (sc : Scene) (doorId : String)
    (st : DoorState) : noRepathOuts (applyDoorState sc doorId st).2 := by
  unfold applyDoorState noRepathOuts
  cases h : (sc.setEntityDoorState doorId st).1 <;> simp [h]

/-- Door actions emit no re-path notification. -/
theorem executeDoorActionAtRange_noRepath (sc : Scene) (doorId : String)
    (door : DoorEnt) (action : DoorMenuAction) :
    noRepathOuts (executeDoorActionAtRange sc doorId door action).2 := by
  cases action with
  | openDoor =>
    unfold executeDoorActionAtRange
    dsimp only
    split
    · simp [noRepathOuts]
    · exact applyDoorState_noRepath sc doorId .opened
  | closeDoor =>
    unfold executeDoorActionAtRange
    dsimp only
    split
    · simp [noRepathOuts]
    · exact applyDoorState_noRepath sc doorId .closed
  | key =>
    unfold executeDoorActionAtRange
    dsimp only
    split
    · simp [noRepathOuts]
    · split
      · simp [noRepathOuts]
      · simp [noRepathOuts]
  | lockpick =>
    unfold executeDoorActionAtRange
    dsimp only
    split
    · simp [noRepathOuts]
    · split
      · simp [noRepathOuts]
      · simp [noRepathOuts]

/-- The deferred door step emits no re-path notification. -/
theorem finishPendingDoorInteraction_noRepath (sc : Scene)
    (pending : String × DoorMenuAction) :
    noRepathOuts (finishPendingDoorInteraction sc pending).2 := by
  unfold finishPendingDoorInteraction
  split
  · simp [noRepathOuts]
  · split
    · simp [noRepathOuts]
    · exact executeDoorActionAtRange_noRepath _ _ _ _

/-- The arrival door step emits no re-path notification. -/
theorem arrivalDoorStep_noRepath (sc : Scene)
    (pd : Option (String × DoorMenuAction)) :
    noRepathOuts (arrivalDoorStep sc pd).2 := by
  cases pd with
  | none => simp [arrivalDoorStep, noRepathOuts]
  | some pending => exact finishPendingDoorInteraction_noRepath sc pending

/-- Planning emits no re-path notification and never raises the attempt
counter (it resets it on success). -/
theorem tryPlanPlayerMovement_props (navGrid : NavigationGrid)
    (playerPos targetTile : NavPos) (fb : Bool) (ms : Option String)
    (c : Coordinator) (hc : c.repathAttempts ≤ maxRepathAttempts) :
    noRepathOuts (tryPlanPlayerMovement navGrid playerPos targetTile fb ms c).2.2 ∧
    (tryPlanPlayerMovement navGrid playerPos targetTile fb ms c).2.1.repathAttempts ≤
      maxRepathAttempts := by
  unfold tryPlanPlayerMovement
  dsimp only
  split
  · exact ⟨by simp [noRepathOuts], hc⟩
  · exact ⟨by simp [noRepathOuts], by simp [maxRepathAttempts]⟩

/-- A re-path past the attempt budget is refused. -/
theorem tryRepath_exhausted (navGrid : NavigationGrid) (p : NavPos)
    (c : Coordinator) (h : maxRepathAttempts ≤ c.repathAttempts) :
    (tryRepath navGrid p c).1 = false := by
  unfold tryRepath
  cases ht : c.playerTarget with
  | none => rfl
  | some t => simp only [ge_iff_le, h, if_true]

/-- A re-path keeps the attempt counter within the budget. -/
theorem tryRepath_attempts_le (navGrid : NavigationGrid) (p : NavPos)
    (c : Coordinator) (hc : c.repathAttempts ≤ maxRepathAttempts) :
    (tryRepath navGrid p c).2.1.repathAttempts ≤ maxRepathAttempts := by
  unfold tryRepath
  split
  · exact hc
  · split
    · exact hc
    · dsimp only
      split
      · dsimp only
        omega
      · dsimp only
        omega

/-- Every re-path notification carries the freshly consumed attempt
count, which stays within the budget; a re-path never reports failure
itself. -/
theorem tryRepath_outs (navGrid : NavigationGrid) (p : NavPos)
    (c : Coordinator) :
    (∀ a dest,
      CoordOut.event (.repathStarted a dest) ∈ (tryRepath navGrid p c).2.2 →
        a = c.repathAttempts + 1 ∧ c.repathAttempts < maxRepathAttempts) ∧
    CoordOut.event .repathFailed ∉ (tryRepath navGrid p c).2.2 := by
  unfold tryRepath
  split
  · simp
  · split
    · simp
    · dsimp only
      split
      · simp
      · next hge _ =>
        refine ⟨?_, by simp⟩
        intro a dest hmem
        simp at hmem
        exact ⟨hmem.1, by omega⟩

/-- A successful re-path consumed one attempt and installed the path
found from the snapshot player position toward the session target,
announcing it with the attempt count. -/
theorem tryRepath_success (navGrid : NavigationGrid) (p : NavPos)
    (c : Coordinator) (h : (tryRepath navGrid p c).1 = true) :
    ∃ t, c.playerTarget = some t ∧
      (tryRepath navGrid p c).2.1.playerPath =
        (findNavigationPath p t navGrid (plannerOptions true)).1.path ∧
      (tryRepath navGrid p c).2.1.repathAttempts = c.repathAttempts + 1 ∧
      CoordOut.event (.repathStarted (c.repathAttempts + 1)
          ((findNavigationPath p t navGrid (plannerOptions true)).1.path.getLastD ⟨0, 0⟩)) ∈
        (tryRepath navGrid p c).2.2 := by
  revert h
  unfold tryRepath
  split
  · intro h; simp at h
  · next target heq =>
    split
    · intro h; simp at h
    · dsimp only
      split
      · intro h; simp at h
      · intro _
        exact ⟨target, heq, rfl, rfl, by simp⟩

/-- Invariant of the stepping loop: the attempt counter stays within
the budget, every re-path notification carries an attempt count between
1 and the budget, and a re-path-failure notification only ever leaves
the torn-down session (path and targets cleared). -/
theorem advancePlayerMovementLoop_inv (navGrid : NavigationGrid)
    (movedOk : NavPos → Bool) (snapPos : NavPos) :
    ∀ fuel (c : Coordinator) (sc : Scene) (outs : List CoordOut),
      c.repathAttempts ≤ maxRepathAttempts →
      (∀ a dest, CoordOut.event (.repathStarted a dest) ∈ outs →
        1 ≤ a ∧ a ≤ maxRepathAttempts) →
      CoordOut.event .repathFailed ∉ outs →
      (advancePlayerMovementLoop navGrid movedOk snapPos fuel c sc outs).1.repathAttempts ≤
        maxRepathAttempts ∧
      (∀ a dest, CoordOut.event (.repathStarted a dest) ∈
          (advancePlayerMovementLoop navGrid movedOk snapPos fuel c sc outs).2.2 →
        1 ≤ a ∧ a ≤ maxRepathAttempts) ∧
      (CoordOut.event .repathFailed ∈
          (advancePlayerMovementLoop navGrid movedOk snapPos fuel c sc outs).2.2 →
        (advancePlayerMovementLoop navGrid movedOk snapPos fuel c sc outs).1.playerPath = [] ∧
        (advancePlayerMovementLoop navGrid movedOk snapPos fuel c sc outs).1.playerPathIndex = 0 ∧
        (advancePlayerMovementLoop navGrid movedOk snapPos fuel c sc outs).1.playerTarget = none ∧
        (advancePlayerMovementLoop navGrid movedOk snapPos fuel c sc outs).1.activeDestination = none) := by
  intro fuel
  induction fuel with
  | zero =>
    intro c sc outs hc houts hnf
    exact ⟨hc, houts, fun hmem => absurd hmem hnf⟩
  | succ n ih =>
    intro c sc outs hc houts hnf
    unfold advancePlayerMovementLoop
    split
    · dsimp only
      split
      · -- blocked step
        split
        · -- re-path refused: teardown
          refine ⟨?_, ?_, fun _ => ⟨rfl, rfl, rfl, rfl⟩⟩
          · exact tryRepath_attempts_le navGrid snapPos _ hc
          · intro a dest hmem
            simp at hmem
            rcases hmem with hm | hm
            · exact houts a dest hm
            · obtain ⟨h1, h2⟩ := (tryRepath_outs navGrid snapPos _).1 a dest hm
              omega
        · -- re-path succeeded: continue stepping
          apply ih
          · exact tryRepath_attempts_le navGrid snapPos _ hc
          · intro a dest hmem
            simp at hmem
            rcases hmem with hm | hm
            · exact houts a dest hm
            · obtain ⟨h1, h2⟩ := (tryRepath_outs navGrid snapPos _).1 a dest hm
              omega
          · intro hmem
            simp at hmem
            rcases hmem with hm | hm
            · exact hnf hm
            · exact (tryRepath_outs navGrid snapPos _).2 hm
      · split
        · -- the scene refused the committed step: teardown with blocked
          refine ⟨hc, ?_, fun _ => ⟨rfl, rfl, rfl, rfl⟩⟩
          intro a dest hmem
          simp at hmem
          exact houts a dest hmem
        · -- step committed
          split
          · -- arrival
            split
            · -- queued target: re-plan and continue
              apply ih
              · exact (tryPlanPlayerMovement_props navGrid _ _ _ _ _
                  (by exact hc)).2
              · intro a dest hmem
                simp only [List.mem_append] at hmem
                rcases hmem with (((hm | hm) | hm) | hm) | hm
                · exact houts a dest hm
                · simp at hm
                · simp at hm
                · exact absurd hm
                    ((arrivalDoorStep_noRepath _ _).1 a dest)
                · exact absurd hm
                    ((tryPlanPlayerMovement_props navGrid _ _ _ _ _
                      (by exact hc)).1.1 a dest)
              · intro hmem
                simp only [List.mem_append] at hmem
                rcases hmem with (((hm | hm) | hm) | hm) | hm
                · exact hnf hm
                · simp at hm
                · simp at hm
                · exact (arrivalDoorStep_noRepath _ _).2 hm
                · exact (tryPlanPlayerMovement_props navGrid _ _ _ _ _
                    (by exact hc)).1.2 hm
            · -- no queued target: continue (loop condition now fails)
              apply ih
              · exact hc
              · intro a dest hmem
                simp only [List.mem_append] at hmem
                rcases hmem with ((hm | hm) | hm) | hm
                · exact houts a dest hm
                · simp at hm
                · simp at hm
                · exact absurd hm
                    ((arrivalDoorStep_noRepath _ _).1 a dest)
              · intro hmem
                simp only [List.mem_append] at hmem
                rcases hmem with ((hm | hm) | hm) | hm
                · exact hnf hm
                · simp at hm
                · simp at hm
                · exact (arrivalDoorStep_noRepath _ _).2 hm
          · -- mid-path: continue stepping
            apply ih
            · exact hc
            · intro a dest hmem
              simp only [List.mem_append] at hmem
              rcases hmem with hm | hm
              · exact houts a dest hm
              · simp at hm
            · intro hmem
              simp only [List.mem_append] at hmem
              rcases hmem with hm | hm
              · exact hnf hm
              · simp at hm
    · exact ⟨hc, houts, fun hmem => absurd hmem hnf⟩

/-- A refused re-path emits nothing: when the target is missing or the
budget is spent no attempt is consumed, and when the search yields no
usable path the attempt is consumed silently (the source dispatches no
notification on this branch, PixiRenderer.ts lines 869-879). -/
theorem tryRepath_failure_silent (navGrid : NavigationGrid) (p : NavPos)
    (c : Coordinator) (h : (tryRepath navGrid p c).1 = false) :
    (tryRepath navGrid p c).2.2 = [] ∧
    ((tryRepath navGrid p c).2.1.repathAttempts = c.repathAttempts ∨
      (tryRepath navGrid p c).2.1.repathAttempts = c.repathAttempts + 1) := by
  revert h
  unfold tryRepath
  split
  · intro _
    exact ⟨rfl, Or.inl rfl⟩
  · split
    · intro _
      exact ⟨rfl, Or.inl rfl⟩
    · dsimp only
      split
      · intro _
        exact ⟨rfl, Or.inr rfl⟩
      · intro h
        simp at h

/-- C7 amended: a blocked step re-paths at most maxRepathAttempts (3)
times per session, each attempt searching from the player position of
the update snapshot toward the original session target; an attempt
whose search finds a usable path emits the re-path-started notification
carrying the attempt count (always between 1 and 3), while an attempt
whose search finds none is consumed silently (no notification); and
whenever an update emits the re-path-failed notification — the re-path
was refused, whether the budget was spent or the search came up empty —
the session is torn down: path cleared, cursor reset, target and active
destination cleared, so no further stepping can occur. -/
theorem repath_budget_and_teardown (navGrid : NavigationGrid)
    (frameMs : ℚ) (movedOk : NavPos → Bool) (c : Coordinator) (sc : Scene)
    (hc : c.repathAttempts ≤ maxRepathAttempts) :
    (advancePlayerMovement navGrid frameMs movedOk c sc).1.repathAttempts ≤
      maxRepathAttempts ∧
    (∀ a dest, CoordOut.event (.repathStarted a dest) ∈
        (advancePlayerMovement navGrid frameMs movedOk c sc).2.2 →
      1 ≤ a ∧ a ≤ maxRepathAttempts) ∧
    (CoordOut.event .repathFailed ∈
        (advancePlayerMovement navGrid frameMs movedOk c sc).2.2 →
      (advancePlayerMovement navGrid frameMs movedOk c sc).1.playerPath = [] ∧
      (advancePlayerMovement navGrid frameMs movedOk c sc).1.playerPathIndex = 0 ∧
      (advancePlayerMovement navGrid frameMs movedOk c sc).1.playerTarget = none ∧
      (advancePlayerMovement navGrid frameMs movedOk c sc).1.activeDestination = none) ∧
    (∀ c0 p, maxRepathAttempts ≤ c0.repathAttempts →
      (tryRepath navGrid p c0).1 = false) ∧
    (∀ c0 p, (tryRepath navGrid p c0).1 = true →
      ∃ t, c0.playerTarget = some t ∧
        (tryRepath navGrid p c0).2.1.playerPath =
          (findNavigationPath p t navGrid (plannerOptions true)).1.path ∧
        (tryRepath navGrid p c0).2.1.repathAttempts = c0.repathAttempts + 1 ∧
        CoordOut.event (.repathStarted (c0.repathAttempts + 1)
            ((findNavigationPath p t navGrid (plannerOptions true)).1.path.getLastD ⟨0, 0⟩)) ∈
          (tryRepath navGrid p c0).2.2) ∧
    (∀ c0 p, (tryRepath navGrid p c0).1 = false →
      (tryRepath navGrid p c0).2.2 = [] ∧
      ((tryRepath navGrid p c0).2.1.repathAttempts = c0.repathAttempts ∨
        (tryRepath navGrid p c0).2.1.repathAttempts = c0.repathAttempts + 1)) := by
  refine ⟨?_, ?_, ?_, fun c0 p h => tryRepath_exhausted navGrid p c0 h,
    fun c0 p h => tryRepath_success navGrid p c0 h,
    fun c0 p h => tryRepath_failure_silent navGrid p c0 h⟩
  all_goals
    unfold advancePlayerMovement
    split
  · exact hc
  · dsimp only
    exact (advancePlayerMovementLoop_inv navGrid movedOk sc.playerPos _ _ sc []
      (by exact hc) (by simp) (by simp)).1
  · intro a dest hmem
    simp at hmem
  · dsimp only
    exact (advancePlayerMovementLoop_inv navGrid movedOk sc.playerPos _ _ sc []
      (by exact hc) (by simp) (by simp)).2.1
  · intro hmem
    simp at hmem
  · dsimp only
    exact (advancePlayerMovementLoop_inv navGrid movedOk sc.playerPos _ _ sc []
      (by exact hc) (by simp) (by simp)).2.2

/-- A grid with a single walkable tile: the next step of the session
below is off-grid and therefore blocked. -/
def blockedStepGrid : NavigationGrid :=
  NavigationGrid.setTile {}
    { pos := ⟨0, 0⟩, walkable := true, blocksLos := false, terrainCost := 1 }

/-- A session that already consumed its three re-path attempts and is
about to step into the blocked cell. -/
def exhaustedSession : Coordinator :=
  { playerPath := [⟨0, 0⟩, ⟨1, 0⟩]
    playerPathIndex := 1
    playerTarget := some ⟨1, 0⟩
    repathAttempts := 3 }

/-- A minimal scene for the witness run. -/
def demoScene : Scene := { playerPos := ⟨0, 0⟩, doors := [] }

/-- A session identical to the exhausted one but with its full re-path
budget still available. -/
def singleAttemptSession : Coordinator :=
  { playerPath := [⟨0, 0⟩, ⟨1, 0⟩]
    playerPathIndex := 1
    playerTarget := some ⟨1, 0⟩
    repathAttempts := 0 }

section

attribute [local semireducible] Rat.add Rat.sub Rat.mul Rat.inv

/-- C7 counterexample: the original claim says each of the up-to-3
attempts emits a re-path-started notification with its count and that
re-path-failed fires once the attempt budget is exhausted.  On this run
the session has its full budget: the blocked step consumes attempt 1,
whose search finds no usable path, so nothing is dispatched for it; the
update then emits re-path-failed with only 1 of 3 attempts consumed.
The complete output list holds no re-path-started notification. -/
theorem repath_silent_attempt_counterexample :
    (advancePlayerMovement blockedStepGrid 120 (fun _ => true)
        singleAttemptSession demoScene).2.2 =
      [CoordOut.event (.blockedStep ⟨1, 0⟩ "occupied_or_closed"),
        CoordOut.movementStatus "repath-failed",
        CoordOut.event .repathFailed,
        CoordOut.pathPreview [],
        CoordOut.pathPreviewState "invalid",
        CoordOut.commandState "none"] ∧
    (advancePlayerMovement blockedStepGrid 120 (fun _ => true)
      singleAttemptSession demoScene).1.repathAttempts = 1 := by
  decide

/-- Witness for the amended re-path claim: one 120 ms update of the
exhausted session hits the blocked step, the re-path is refused, the
re-path-failed notification is emitted and the session is torn down. -/
theorem repath_budget_witness :
    CoordOut.event .repathFailed ∈
      (advancePlayerMovement blockedStepGrid 120 (fun _ => true)
        exhaustedSession demoScene).2.2 ∧
    (advancePlayerMovement blockedStepGrid 120 (fun _ => true)
      exhaustedSession demoScene).1.playerPath = [] ∧
    (advancePlayerMovement blockedStepGrid 120 (fun _ => true)
      exhaustedSession demoScene).1.playerTarget = none := by
  have hmem : CoordOut.event .repathFailed ∈
      (advancePlayerMovement blockedStepGrid 120 (fun _ => true)
        exhaustedSession demoScene).2.2 := by decide
  have h := repath_budget_and_teardown blockedStepGrid 120 (fun _ => true)
    exhaustedSession demoScene (by decide)
  obtain ⟨p1, p2, p3, p4⟩ := h.2.2.1 hmem
  exact ⟨hmem, p1, p3⟩

end
